import Mathlib

/-!
Verification of the lyrics formatting core of the 1co18 worship-song catalog.

Strings are embedded as `List Char`.  JavaScript `s.replace(/c/g, r)` with a
single-character pattern is embedded as `replaceChar c r`.  The embedded
functions are:

* `formatForProjection` and `generateOpenLyricsXML` (with its private helper
  `escapeXml`) from `src/utils/formatLyrics.ts`;
* `normalizeForSearch` from `src/lib/songs.ts`, with the builtin
  `String.prototype.toLowerCase` embedded as the Unicode default full
  lowercase conversion (the per-code-point table together with the
  `Final_Sigma` context rule for capital sigma);
* the slide segmentation engine (`splitIntoSlides` and the segmented
  `formatForProjection` variant), whose implementation module is not part of
  the sources at hand (only its caller, the slide-format CopyButton, is);
  those two are modelled from the specification and are marked as such.
-/

/-- JavaScript `text.replace(/c/g, r)` for a single-character pattern `c`:
every occurrence of the character `c` is replaced by the string `r`, all other
characters are kept. -/
def replaceChar (c : Char) (r : List Char) : List Char → List Char
  | [] => []
  | d :: t => (if d = c then r else [d]) ++ replaceChar c r t

/-- The apostrophe character (U+0027), written via its code point. -/
def apos : Char := Char.ofNat 39

/-- The `Song` record of `src/lib/supabase.ts`: `artist` is nullable
(`string | null`), all other fields are as in the `songs` table schema. -/
structure Song where
  id : Nat
  title : List Char
  artist : Option (List Char)
  lyrics : List Char
  language : List Char
  is_verified : Bool
  created_at : List Char

/-- JavaScript `song.artist || "Unknown"`: both `null` and the empty string
are falsy and fall back to the placeholder. -/
def orUnknown : Option (List Char) → List Char
  | none => "Unknown".toList
  | some a => if a = [] then "Unknown".toList else a

/-- `formatForProjection` from `src/utils/formatLyrics.ts`: the two-line
header followed by a blank line and the raw lyrics. -/
def formatForProjection (song : Song) : List Char :=
  "Title: ".toList ++ song.title ++ "\nAuthor: ".toList ++ orUnknown song.artist
    ++ "\n\n".toList ++ song.lyrics

/-- `escapeXml` from `src/utils/formatLyrics.ts`: sequential global replaces,
`&` first, then `<`, `>`, `"`, `'`. -/
def escapeXml (text : List Char) : List Char :=
  replaceChar apos "&apos;".toList
    (replaceChar '\"' "&quot;".toList
      (replaceChar '>' "&gt;".toList
        (replaceChar '<' "&lt;".toList
          (replaceChar '&' "&amp;".toList text))))

/-- The OpenLyrics template up to the title content. -/
def xmlA : List Char :=
  "<?xml version=\"1.0\" encoding=\"UTF-8\"?>\n<song xmlns=\"http://openlyrics.info/namespace/2009/song\" version=\"0.8\">\n  <properties>\n    <titles>\n      <title>".toList

/-- The OpenLyrics template between the title content and the author
content. -/
def xmlB : List Char :=
  "</title>\n    </titles>\n    <authors>\n      <author>".toList

/-- The OpenLyrics template between the author content and the lyrics
content, ending with the single verse opening tag. -/
def xmlC : List Char :=
  "</author>\n    </authors>\n  </properties>\n  <lyrics>\n    <verse name=\"v1\">\n      <lines>".toList

/-- The OpenLyrics template after the lyrics content, from the closing
verse tag to the end of the document. -/
def xmlD : List Char :=
  "</lines>\n    </verse>\n  </lyrics>\n</song>".toList

/-- `generateOpenLyricsXML` from `src/utils/formatLyrics.ts`: the template
literal with the escaped title, escaped artist-or-placeholder, and escaped
lyrics (newlines replaced by `<br/>`) interpolated. -/
def generateOpenLyricsXML (song : Song) : List Char :=
  xmlA ++ escapeXml song.title
    ++ xmlB ++ escapeXml (orUnknown song.artist)
    ++ xmlC ++ replaceChar '\n' "<br/>".toList (escapeXml song.lyrics)
    ++ xmlD

/-- Slices of the Unicode default full lowercase table; each slice holds
the code points of one ascending key range. -/
def lowerTable1 : List (Nat × List Nat) := [
    (65, [97]), (66, [98]), (67, [99]), (68, [100]),
    (69, [101]), (70, [102]), (71, [103]), (72, [104]),
    (73, [105]), (74, [106]), (75, [107]), (76, [108]),
    (77, [109]), (78, [110]), (79, [111]), (80, [112]),
    (81, [113]), (82, [114]), (83, [115]), (84, [116]),
    (85, [117]), (86, [118]), (87, [119]), (88, [120]),
    (89, [121]), (90, [122]), (192, [224]), (193, [225]),
    (194, [226]), (195, [227]), (196, [228]), (197, [229]),
    (198, [230]), (199, [231]), (200, [232]), (201, [233]),
    (202, [234]), (203, [235]), (204, [236]), (205, [237]),
    (206, [238]), (207, [239]), (208, [240]), (209, [241]),
    (210, [242]), (211, [243]), (212, [244]), (213, [245]),
    (214, [246]), (216, [248]), (217, [249]), (218, [250]),
    (219, [251]), (220, [252]), (221, [253]), (222, [254]),
    (256, [257]), (258, [259]), (260, [261]), (262, [263]),
    (264, [265]), (266, [267]), (268, [269]), (270, [271]),
    (272, [273]), (274, [275]), (276, [277]), (278, [279]),
    (280, [281]), (282, [283]), (284, [285]), (286, [287]),
    (288, [289]), (290, [291]), (292, [293]), (294, [295]),
    (296, [297]), (298, [299]), (300, [301]), (302, [303]),
    (304, [105, 775]), (306, [307]), (308, [309]), (310, [311]),
    (313, [314]), (315, [316]), (317, [318]), (319, [320]),
    (321, [322]), (323, [324]), (325, [326]), (327, [328]),
    (330, [331]), (332, [333]), (334, [335]), (336, [337]),
    (338, [339]), (340, [341]), (342, [343]), (344, [345]),
    (346, [347]), (348, [349]), (350, [351]), (352, [353]),
    (354, [355]), (356, [357]), (358, [359]), (360, [361]),
    (362, [363]), (364, [365]), (366, [367]), (368, [369]),
    (370, [371]), (372, [373]), (374, [375]), (376, [255]),
    (377, [378]), (379, [380]), (381, [382]), (385, [595])]

def lowerTable2 : List (Nat × List Nat) := [
    (386, [387]), (388, [389]), (390, [596]), (391, [392]),
    (393, [598]), (394, [599]), (395, [396]), (398, [477]),
    (399, [601]), (400, [603]), (401, [402]), (403, [608]),
    (404, [611]), (406, [617]), (407, [616]), (408, [409]),
    (412, [623]), (413, [626]), (415, [629]), (416, [417]),
    (418, [419]), (420, [421]), (422, [640]), (423, [424]),
    (425, [643]), (428, [429]), (430, [648]), (431, [432]),
    (433, [650]), (434, [651]), (435, [436]), (437, [438]),
    (439, [658]), (440, [441]), (444, [445]), (452, [454]),
    (453, [454]), (455, [457]), (456, [457]), (458, [460]),
    (459, [460]), (461, [462]), (463, [464]), (465, [466]),
    (467, [468]), (469, [470]), (471, [472]), (473, [474]),
    (475, [476]), (478, [479]), (480, [481]), (482, [483]),
    (484, [485]), (486, [487]), (488, [489]), (490, [491]),
    (492, [493]), (494, [495]), (497, [499]), (498, [499]),
    (500, [501]), (502, [405]), (503, [447]), (504, [505]),
    (506, [507]), (508, [509]), (510, [511]), (512, [513]),
    (514, [515]), (516, [517]), (518, [519]), (520, [521]),
    (522, [523]), (524, [525]), (526, [527]), (528, [529]),
    (530, [531]), (532, [533]), (534, [535]), (536, [537]),
    (538, [539]), (540, [541]), (542, [543]), (544, [414]),
    (546, [547]), (548, [549]), (550, [551]), (552, [553]),
    (554, [555]), (556, [557]), (558, [559]), (560, [561]),
    (562, [563]), (570, [11365]), (571, [572]), (573, [410]),
    (574, [11366]), (577, [578]), (579, [384]), (580, [649]),
    (581, [652]), (582, [583]), (584, [585]), (586, [587]),
    (588, [589]), (590, [591]), (880, [881]), (882, [883]),
    (886, [887]), (895, [1011]), (902, [940]), (904, [941]),
    (905, [942]), (906, [943]), (908, [972]), (910, [973]),
    (911, [974]), (913, [945]), (914, [946]), (915, [947])]

def lowerTable3 : List (Nat × List Nat) := [
    (916, [948]), (917, [949]), (918, [950]), (919, [951]),
    (920, [952]), (921, [953]), (922, [954]), (923, [955]),
    (924, [956]), (925, [957]), (926, [958]), (927, [959]),
    (928, [960]), (929, [961]), (931, [963]), (932, [964]),
    (933, [965]), (934, [966]), (935, [967]), (936, [968]),
    (937, [969]), (938, [970]), (939, [971]), (975, [983]),
    (984, [985]), (986, [987]), (988, [989]), (990, [991]),
    (992, [993]), (994, [995]), (996, [997]), (998, [999]),
    (1000, [1001]), (1002, [1003]), (1004, [1005]), (1006, [1007]),
    (1012, [952]), (1015, [1016]), (1017, [1010]), (1018, [1019]),
    (1021, [891]), (1022, [892]), (1023, [893]), (1024, [1104]),
    (1025, [1105]), (1026, [1106]), (1027, [1107]), (1028, [1108]),
    (1029, [1109]), (1030, [1110]), (1031, [1111]), (1032, [1112]),
    (1033, [1113]), (1034, [1114]), (1035, [1115]), (1036, [1116]),
    (1037, [1117]), (1038, [1118]), (1039, [1119]), (1040, [1072]),
    (1041, [1073]), (1042, [1074]), (1043, [1075]), (1044, [1076]),
    (1045, [1077]), (1046, [1078]), (1047, [1079]), (1048, [1080]),
    (1049, [1081]), (1050, [1082]), (1051, [1083]), (1052, [1084]),
    (1053, [1085]), (1054, [1086]), (1055, [1087]), (1056, [1088]),
    (1057, [1089]), (1058, [1090]), (1059, [1091]), (1060, [1092]),
    (1061, [1093]), (1062, [1094]), (1063, [1095]), (1064, [1096]),
    (1065, [1097]), (1066, [1098]), (1067, [1099]), (1068, [1100]),
    (1069, [1101]), (1070, [1102]), (1071, [1103]), (1120, [1121]),
    (1122, [1123]), (1124, [1125]), (1126, [1127]), (1128, [1129]),
    (1130, [1131]), (1132, [1133]), (1134, [1135]), (1136, [1137]),
    (1138, [1139]), (1140, [1141]), (1142, [1143]), (1144, [1145]),
    (1146, [1147]), (1148, [1149]), (1150, [1151]), (1152, [1153]),
    (1162, [1163]), (1164, [1165]), (1166, [1167]), (1168, [1169]),
    (1170, [1171]), (1172, [1173]), (1174, [1175]), (1176, [1177]),
    (1178, [1179]), (1180, [1181]), (1182, [1183]), (1184, [1185])]

def lowerTable4 : List (Nat × List Nat) := [
    (1186, [1187]), (1188, [1189]), (1190, [1191]), (1192, [1193]),
    (1194, [1195]), (1196, [1197]), (1198, [1199]), (1200, [1201]),
    (1202, [1203]), (1204, [1205]), (1206, [1207]), (1208, [1209]),
    (1210, [1211]), (1212, [1213]), (1214, [1215]), (1216, [1231]),
    (1217, [1218]), (1219, [1220]), (1221, [1222]), (1223, [1224]),
    (1225, [1226]), (1227, [1228]), (1229, [1230]), (1232, [1233]),
    (1234, [1235]), (1236, [1237]), (1238, [1239]), (1240, [1241]),
    (1242, [1243]), (1244, [1245]), (1246, [1247]), (1248, [1249]),
    (1250, [1251]), (1252, [1253]), (1254, [1255]), (1256, [1257]),
    (1258, [1259]), (1260, [1261]), (1262, [1263]), (1264, [1265]),
    (1266, [1267]), (1268, [1269]), (1270, [1271]), (1272, [1273]),
    (1274, [1275]), (1276, [1277]), (1278, [1279]), (1280, [1281]),
    (1282, [1283]), (1284, [1285]), (1286, [1287]), (1288, [1289]),
    (1290, [1291]), (1292, [1293]), (1294, [1295]), (1296, [1297]),
    (1298, [1299]), (1300, [1301]), (1302, [1303]), (1304, [1305]),
    (1306, [1307]), (1308, [1309]), (1310, [1311]), (1312, [1313]),
    (1314, [1315]), (1316, [1317]), (1318, [1319]), (1320, [1321]),
    (1322, [1323]), (1324, [1325]), (1326, [1327]), (1329, [1377]),
    (1330, [1378]), (1331, [1379]), (1332, [1380]), (1333, [1381]),
    (1334, [1382]), (1335, [1383]), (1336, [1384]), (1337, [1385]),
    (1338, [1386]), (1339, [1387]), (1340, [1388]), (1341, [1389]),
    (1342, [1390]), (1343, [1391]), (1344, [1392]), (1345, [1393]),
    (1346, [1394]), (1347, [1395]), (1348, [1396]), (1349, [1397]),
    (1350, [1398]), (1351, [1399]), (1352, [1400]), (1353, [1401]),
    (1354, [1402]), (1355, [1403]), (1356, [1404]), (1357, [1405]),
    (1358, [1406]), (1359, [1407]), (1360, [1408]), (1361, [1409]),
    (1362, [1410]), (1363, [1411]), (1364, [1412]), (1365, [1413]),
    (1366, [1414]), (4256, [11520]), (4257, [11521]), (4258, [11522]),
    (4259, [11523]), (4260, [11524]), (4261, [11525]), (4262, [11526]),
    (4263, [11527]), (4264, [11528]), (4265, [11529]), (4266, [11530])]

def lowerTable5 : List (Nat × List Nat) := [
    (4267, [11531]), (4268, [11532]), (4269, [11533]), (4270, [11534]),
    (4271, [11535]), (4272, [11536]), (4273, [11537]), (4274, [11538]),
    (4275, [11539]), (4276, [11540]), (4277, [11541]), (4278, [11542]),
    (4279, [11543]), (4280, [11544]), (4281, [11545]), (4282, [11546]),
    (4283, [11547]), (4284, [11548]), (4285, [11549]), (4286, [11550]),
    (4287, [11551]), (4288, [11552]), (4289, [11553]), (4290, [11554]),
    (4291, [11555]), (4292, [11556]), (4293, [11557]), (4295, [11559]),
    (4301, [11565]), (5024, [43888]), (5025, [43889]), (5026, [43890]),
    (5027, [43891]), (5028, [43892]), (5029, [43893]), (5030, [43894]),
    (5031, [43895]), (5032, [43896]), (5033, [43897]), (5034, [43898]),
    (5035, [43899]), (5036, [43900]), (5037, [43901]), (5038, [43902]),
    (5039, [43903]), (5040, [43904]), (5041, [43905]), (5042, [43906]),
    (5043, [43907]), (5044, [43908]), (5045, [43909]), (5046, [43910]),
    (5047, [43911]), (5048, [43912]), (5049, [43913]), (5050, [43914]),
    (5051, [43915]), (5052, [43916]), (5053, [43917]), (5054, [43918]),
    (5055, [43919]), (5056, [43920]), (5057, [43921]), (5058, [43922]),
    (5059, [43923]), (5060, [43924]), (5061, [43925]), (5062, [43926]),
    (5063, [43927]), (5064, [43928]), (5065, [43929]), (5066, [43930]),
    (5067, [43931]), (5068, [43932]), (5069, [43933]), (5070, [43934]),
    (5071, [43935]), (5072, [43936]), (5073, [43937]), (5074, [43938]),
    (5075, [43939]), (5076, [43940]), (5077, [43941]), (5078, [43942]),
    (5079, [43943]), (5080, [43944]), (5081, [43945]), (5082, [43946]),
    (5083, [43947]), (5084, [43948]), (5085, [43949]), (5086, [43950]),
    (5087, [43951]), (5088, [43952]), (5089, [43953]), (5090, [43954]),
    (5091, [43955]), (5092, [43956]), (5093, [43957]), (5094, [43958]),
    (5095, [43959]), (5096, [43960]), (5097, [43961]), (5098, [43962]),
    (5099, [43963]), (5100, [43964]), (5101, [43965]), (5102, [43966]),
    (5103, [43967]), (5104, [5112]), (5105, [5113]), (5106, [5114]),
    (5107, [5115]), (5108, [5116]), (5109, [5117]), (7312, [4304]),
    (7313, [4305]), (7314, [4306]), (7315, [4307]), (7316, [4308])]

def lowerTable6 : List (Nat × List Nat) := [
    (7317, [4309]), (7318, [4310]), (7319, [4311]), (7320, [4312]),
    (7321, [4313]), (7322, [4314]), (7323, [4315]), (7324, [4316]),
    (7325, [4317]), (7326, [4318]), (7327, [4319]), (7328, [4320]),
    (7329, [4321]), (7330, [4322]), (7331, [4323]), (7332, [4324]),
    (7333, [4325]), (7334, [4326]), (7335, [4327]), (7336, [4328]),
    (7337, [4329]), (7338, [4330]), (7339, [4331]), (7340, [4332]),
    (7341, [4333]), (7342, [4334]), (7343, [4335]), (7344, [4336]),
    (7345, [4337]), (7346, [4338]), (7347, [4339]), (7348, [4340]),
    (7349, [4341]), (7350, [4342]), (7351, [4343]), (7352, [4344]),
    (7353, [4345]), (7354, [4346]), (7357, [4349]), (7358, [4350]),
    (7359, [4351]), (7680, [7681]), (7682, [7683]), (7684, [7685]),
    (7686, [7687]), (7688, [7689]), (7690, [7691]), (7692, [7693]),
    (7694, [7695]), (7696, [7697]), (7698, [7699]), (7700, [7701]),
    (7702, [7703]), (7704, [7705]), (7706, [7707]), (7708, [7709]),
    (7710, [7711]), (7712, [7713]), (7714, [7715]), (7716, [7717]),
    (7718, [7719]), (7720, [7721]), (7722, [7723]), (7724, [7725]),
    (7726, [7727]), (7728, [7729]), (7730, [7731]), (7732, [7733]),
    (7734, [7735]), (7736, [7737]), (7738, [7739]), (7740, [7741]),
    (7742, [7743]), (7744, [7745]), (7746, [7747]), (7748, [7749]),
    (7750, [7751]), (7752, [7753]), (7754, [7755]), (7756, [7757]),
    (7758, [7759]), (7760, [7761]), (7762, [7763]), (7764, [7765]),
    (7766, [7767]), (7768, [7769]), (7770, [7771]), (7772, [7773]),
    (7774, [7775]), (7776, [7777]), (7778, [7779]), (7780, [7781]),
    (7782, [7783]), (7784, [7785]), (7786, [7787]), (7788, [7789]),
    (7790, [7791]), (7792, [7793]), (7794, [7795]), (7796, [7797]),
    (7798, [7799]), (7800, [7801]), (7802, [7803]), (7804, [7805]),
    (7806, [7807]), (7808, [7809]), (7810, [7811]), (7812, [7813]),
    (7814, [7815]), (7816, [7817]), (7818, [7819]), (7820, [7821]),
    (7822, [7823]), (7824, [7825]), (7826, [7827]), (7828, [7829]),
    (7838, [223]), (7840, [7841]), (7842, [7843]), (7844, [7845])]

def lowerTable7 : List (Nat × List Nat) := [
    (7846, [7847]), (7848, [7849]), (7850, [7851]), (7852, [7853]),
    (7854, [7855]), (7856, [7857]), (7858, [7859]), (7860, [7861]),
    (7862, [7863]), (7864, [7865]), (7866, [7867]), (7868, [7869]),
    (7870, [7871]), (7872, [7873]), (7874, [7875]), (7876, [7877]),
    (7878, [7879]), (7880, [7881]), (7882, [7883]), (7884, [7885]),
    (7886, [7887]), (7888, [7889]), (7890, [7891]), (7892, [7893]),
    (7894, [7895]), (7896, [7897]), (7898, [7899]), (7900, [7901]),
    (7902, [7903]), (7904, [7905]), (7906, [7907]), (7908, [7909]),
    (7910, [7911]), (7912, [7913]), (7914, [7915]), (7916, [7917]),
    (7918, [7919]), (7920, [7921]), (7922, [7923]), (7924, [7925]),
    (7926, [7927]), (7928, [7929]), (7930, [7931]), (7932, [7933]),
    (7934, [7935]), (7944, [7936]), (7945, [7937]), (7946, [7938]),
    (7947, [7939]), (7948, [7940]), (7949, [7941]), (7950, [7942]),
    (7951, [7943]), (7960, [7952]), (7961, [7953]), (7962, [7954]),
    (7963, [7955]), (7964, [7956]), (7965, [7957]), (7976, [7968]),
    (7977, [7969]), (7978, [7970]), (7979, [7971]), (7980, [7972]),
    (7981, [7973]), (7982, [7974]), (7983, [7975]), (7992, [7984]),
    (7993, [7985]), (7994, [7986]), (7995, [7987]), (7996, [7988]),
    (7997, [7989]), (7998, [7990]), (7999, [7991]), (8008, [8000]),
    (8009, [8001]), (8010, [8002]), (8011, [8003]), (8012, [8004]),
    (8013, [8005]), (8025, [8017]), (8027, [8019]), (8029, [8021]),
    (8031, [8023]), (8040, [8032]), (8041, [8033]), (8042, [8034]),
    (8043, [8035]), (8044, [8036]), (8045, [8037]), (8046, [8038]),
    (8047, [8039]), (8072, [8064]), (8073, [8065]), (8074, [8066]),
    (8075, [8067]), (8076, [8068]), (8077, [8069]), (8078, [8070]),
    (8079, [8071]), (8088, [8080]), (8089, [8081]), (8090, [8082]),
    (8091, [8083]), (8092, [8084]), (8093, [8085]), (8094, [8086]),
    (8095, [8087]), (8104, [8096]), (8105, [8097]), (8106, [8098]),
    (8107, [8099]), (8108, [8100]), (8109, [8101]), (8110, [8102]),
    (8111, [8103]), (8120, [8112]), (8121, [8113]), (8122, [8048])]

def lowerTable8 : List (Nat × List Nat) := [
    (8123, [8049]), (8124, [8115]), (8136, [8050]), (8137, [8051]),
    (8138, [8052]), (8139, [8053]), (8140, [8131]), (8152, [8144]),
    (8153, [8145]), (8154, [8054]), (8155, [8055]), (8168, [8160]),
    (8169, [8161]), (8170, [8058]), (8171, [8059]), (8172, [8165]),
    (8184, [8056]), (8185, [8057]), (8186, [8060]), (8187, [8061]),
    (8188, [8179]), (8486, [969]), (8490, [107]), (8491, [229]),
    (8498, [8526]), (8544, [8560]), (8545, [8561]), (8546, [8562]),
    (8547, [8563]), (8548, [8564]), (8549, [8565]), (8550, [8566]),
    (8551, [8567]), (8552, [8568]), (8553, [8569]), (8554, [8570]),
    (8555, [8571]), (8556, [8572]), (8557, [8573]), (8558, [8574]),
    (8559, [8575]), (8579, [8580]), (9398, [9424]), (9399, [9425]),
    (9400, [9426]), (9401, [9427]), (9402, [9428]), (9403, [9429]),
    (9404, [9430]), (9405, [9431]), (9406, [9432]), (9407, [9433]),
    (9408, [9434]), (9409, [9435]), (9410, [9436]), (9411, [9437]),
    (9412, [9438]), (9413, [9439]), (9414, [9440]), (9415, [9441]),
    (9416, [9442]), (9417, [9443]), (9418, [9444]), (9419, [9445]),
    (9420, [9446]), (9421, [9447]), (9422, [9448]), (9423, [9449]),
    (11264, [11312]), (11265, [11313]), (11266, [11314]), (11267, [11315]),
    (11268, [11316]), (11269, [11317]), (11270, [11318]), (11271, [11319]),
    (11272, [11320]), (11273, [11321]), (11274, [11322]), (11275, [11323]),
    (11276, [11324]), (11277, [11325]), (11278, [11326]), (11279, [11327]),
    (11280, [11328]), (11281, [11329]), (11282, [11330]), (11283, [11331]),
    (11284, [11332]), (11285, [11333]), (11286, [11334]), (11287, [11335]),
    (11288, [11336]), (11289, [11337]), (11290, [11338]), (11291, [11339]),
    (11292, [11340]), (11293, [11341]), (11294, [11342]), (11295, [11343]),
    (11296, [11344]), (11297, [11345]), (11298, [11346]), (11299, [11347]),
    (11300, [11348]), (11301, [11349]), (11302, [11350]), (11303, [11351]),
    (11304, [11352]), (11305, [11353]), (11306, [11354]), (11307, [11355]),
    (11308, [11356]), (11309, [11357]), (11310, [11358]), (11311, [11359]),
    (11360, [11361]), (11362, [619]), (11363, [7549]), (11364, [637])]

def lowerTable9 : List (Nat × List Nat) := [
    (11367, [11368]), (11369, [11370]), (11371, [11372]), (11373, [593]),
    (11374, [625]), (11375, [592]), (11376, [594]), (11378, [11379]),
    (11381, [11382]), (11390, [575]), (11391, [576]), (11392, [11393]),
    (11394, [11395]), (11396, [11397]), (11398, [11399]), (11400, [11401]),
    (11402, [11403]), (11404, [11405]), (11406, [11407]), (11408, [11409]),
    (11410, [11411]), (11412, [11413]), (11414, [11415]), (11416, [11417]),
    (11418, [11419]), (11420, [11421]), (11422, [11423]), (11424, [11425]),
    (11426, [11427]), (11428, [11429]), (11430, [11431]), (11432, [11433]),
    (11434, [11435]), (11436, [11437]), (11438, [11439]), (11440, [11441]),
    (11442, [11443]), (11444, [11445]), (11446, [11447]), (11448, [11449]),
    (11450, [11451]), (11452, [11453]), (11454, [11455]), (11456, [11457]),
    (11458, [11459]), (11460, [11461]), (11462, [11463]), (11464, [11465]),
    (11466, [11467]), (11468, [11469]), (11470, [11471]), (11472, [11473]),
    (11474, [11475]), (11476, [11477]), (11478, [11479]), (11480, [11481]),
    (11482, [11483]), (11484, [11485]), (11486, [11487]), (11488, [11489]),
    (11490, [11491]), (11499, [11500]), (11501, [11502]), (11506, [11507]),
    (42560, [42561]), (42562, [42563]), (42564, [42565]), (42566, [42567]),
    (42568, [42569]), (42570, [42571]), (42572, [42573]), (42574, [42575]),
    (42576, [42577]), (42578, [42579]), (42580, [42581]), (42582, [42583]),
    (42584, [42585]), (42586, [42587]), (42588, [42589]), (42590, [42591]),
    (42592, [42593]), (42594, [42595]), (42596, [42597]), (42598, [42599]),
    (42600, [42601]), (42602, [42603]), (42604, [42605]), (42624, [42625]),
    (42626, [42627]), (42628, [42629]), (42630, [42631]), (42632, [42633]),
    (42634, [42635]), (42636, [42637]), (42638, [42639]), (42640, [42641]),
    (42642, [42643]), (42644, [42645]), (42646, [42647]), (42648, [42649]),
    (42650, [42651]), (42786, [42787]), (42788, [42789]), (42790, [42791]),
    (42792, [42793]), (42794, [42795]), (42796, [42797]), (42798, [42799]),
    (42802, [42803]), (42804, [42805]), (42806, [42807]), (42808, [42809]),
    (42810, [42811]), (42812, [42813]), (42814, [42815]), (42816, [42817]),
    (42818, [42819]), (42820, [42821]), (42822, [42823]), (42824, [42825])]

def lowerTable10 : List (Nat × List Nat) := [
    (42826, [42827]), (42828, [42829]), (42830, [42831]), (42832, [42833]),
    (42834, [42835]), (42836, [42837]), (42838, [42839]), (42840, [42841]),
    (42842, [42843]), (42844, [42845]), (42846, [42847]), (42848, [42849]),
    (42850, [42851]), (42852, [42853]), (42854, [42855]), (42856, [42857]),
    (42858, [42859]), (42860, [42861]), (42862, [42863]), (42873, [42874]),
    (42875, [42876]), (42877, [7545]), (42878, [42879]), (42880, [42881]),
    (42882, [42883]), (42884, [42885]), (42886, [42887]), (42891, [42892]),
    (42893, [613]), (42896, [42897]), (42898, [42899]), (42902, [42903]),
    (42904, [42905]), (42906, [42907]), (42908, [42909]), (42910, [42911]),
    (42912, [42913]), (42914, [42915]), (42916, [42917]), (42918, [42919]),
    (42920, [42921]), (42922, [614]), (42923, [604]), (42924, [609]),
    (42925, [620]), (42926, [618]), (42928, [670]), (42929, [647]),
    (42930, [669]), (42931, [43859]), (42932, [42933]), (42934, [42935]),
    (42936, [42937]), (42938, [42939]), (42940, [42941]), (42942, [42943]),
    (42944, [42945]), (42946, [42947]), (42948, [42900]), (42949, [642]),
    (42950, [7566]), (42951, [42952]), (42953, [42954]), (42960, [42961]),
    (42966, [42967]), (42968, [42969]), (42997, [42998]), (65313, [65345]),
    (65314, [65346]), (65315, [65347]), (65316, [65348]), (65317, [65349]),
    (65318, [65350]), (65319, [65351]), (65320, [65352]), (65321, [65353]),
    (65322, [65354]), (65323, [65355]), (65324, [65356]), (65325, [65357]),
    (65326, [65358]), (65327, [65359]), (65328, [65360]), (65329, [65361]),
    (65330, [65362]), (65331, [65363]), (65332, [65364]), (65333, [65365]),
    (65334, [65366]), (65335, [65367]), (65336, [65368]), (65337, [65369]),
    (65338, [65370]), (66560, [66600]), (66561, [66601]), (66562, [66602]),
    (66563, [66603]), (66564, [66604]), (66565, [66605]), (66566, [66606]),
    (66567, [66607]), (66568, [66608]), (66569, [66609]), (66570, [66610]),
    (66571, [66611]), (66572, [66612]), (66573, [66613]), (66574, [66614]),
    (66575, [66615]), (66576, [66616]), (66577, [66617]), (66578, [66618]),
    (66579, [66619]), (66580, [66620]), (66581, [66621]), (66582, [66622]),
    (66583, [66623]), (66584, [66624]), (66585, [66625]), (66586, [66626])]

def lowerTable11 : List (Nat × List Nat) := [
    (66587, [66627]), (66588, [66628]), (66589, [66629]), (66590, [66630]),
    (66591, [66631]), (66592, [66632]), (66593, [66633]), (66594, [66634]),
    (66595, [66635]), (66596, [66636]), (66597, [66637]), (66598, [66638]),
    (66599, [66639]), (66736, [66776]), (66737, [66777]), (66738, [66778]),
    (66739, [66779]), (66740, [66780]), (66741, [66781]), (66742, [66782]),
    (66743, [66783]), (66744, [66784]), (66745, [66785]), (66746, [66786]),
    (66747, [66787]), (66748, [66788]), (66749, [66789]), (66750, [66790]),
    (66751, [66791]), (66752, [66792]), (66753, [66793]), (66754, [66794]),
    (66755, [66795]), (66756, [66796]), (66757, [66797]), (66758, [66798]),
    (66759, [66799]), (66760, [66800]), (66761, [66801]), (66762, [66802]),
    (66763, [66803]), (66764, [66804]), (66765, [66805]), (66766, [66806]),
    (66767, [66807]), (66768, [66808]), (66769, [66809]), (66770, [66810]),
    (66771, [66811]), (66928, [66967]), (66929, [66968]), (66930, [66969]),
    (66931, [66970]), (66932, [66971]), (66933, [66972]), (66934, [66973]),
    (66935, [66974]), (66936, [66975]), (66937, [66976]), (66938, [66977]),
    (66940, [66979]), (66941, [66980]), (66942, [66981]), (66943, [66982]),
    (66944, [66983]), (66945, [66984]), (66946, [66985]), (66947, [66986]),
    (66948, [66987]), (66949, [66988]), (66950, [66989]), (66951, [66990]),
    (66952, [66991]), (66953, [66992]), (66954, [66993]), (66956, [66995]),
    (66957, [66996]), (66958, [66997]), (66959, [66998]), (66960, [66999]),
    (66961, [67000]), (66962, [67001]), (66964, [67003]), (66965, [67004]),
    (68736, [68800]), (68737, [68801]), (68738, [68802]), (68739, [68803]),
    (68740, [68804]), (68741, [68805]), (68742, [68806]), (68743, [68807]),
    (68744, [68808]), (68745, [68809]), (68746, [68810]), (68747, [68811]),
    (68748, [68812]), (68749, [68813]), (68750, [68814]), (68751, [68815]),
    (68752, [68816]), (68753, [68817]), (68754, [68818]), (68755, [68819]),
    (68756, [68820]), (68757, [68821]), (68758, [68822]), (68759, [68823]),
    (68760, [68824]), (68761, [68825]), (68762, [68826]), (68763, [68827]),
    (68764, [68828]), (68765, [68829]), (68766, [68830]), (68767, [68831]),
    (68768, [68832]), (68769, [68833]), (68770, [68834]), (68771, [68835])]

def lowerTable12 : List (Nat × List Nat) := [
    (68772, [68836]), (68773, [68837]), (68774, [68838]), (68775, [68839]),
    (68776, [68840]), (68777, [68841]), (68778, [68842]), (68779, [68843]),
    (68780, [68844]), (68781, [68845]), (68782, [68846]), (68783, [68847]),
    (68784, [68848]), (68785, [68849]), (68786, [68850]), (71840, [71872]),
    (71841, [71873]), (71842, [71874]), (71843, [71875]), (71844, [71876]),
    (71845, [71877]), (71846, [71878]), (71847, [71879]), (71848, [71880]),
    (71849, [71881]), (71850, [71882]), (71851, [71883]), (71852, [71884]),
    (71853, [71885]), (71854, [71886]), (71855, [71887]), (71856, [71888]),
    (71857, [71889]), (71858, [71890]), (71859, [71891]), (71860, [71892]),
    (71861, [71893]), (71862, [71894]), (71863, [71895]), (71864, [71896]),
    (71865, [71897]), (71866, [71898]), (71867, [71899]), (71868, [71900]),
    (71869, [71901]), (71870, [71902]), (71871, [71903]), (93760, [93792]),
    (93761, [93793]), (93762, [93794]), (93763, [93795]), (93764, [93796]),
    (93765, [93797]), (93766, [93798]), (93767, [93799]), (93768, [93800]),
    (93769, [93801]), (93770, [93802]), (93771, [93803]), (93772, [93804]),
    (93773, [93805]), (93774, [93806]), (93775, [93807]), (93776, [93808]),
    (93777, [93809]), (93778, [93810]), (93779, [93811]), (93780, [93812]),
    (93781, [93813]), (93782, [93814]), (93783, [93815]), (93784, [93816]),
    (93785, [93817]), (93786, [93818]), (93787, [93819]), (93788, [93820]),
    (93789, [93821]), (93790, [93822]), (93791, [93823]), (125184, [125218]),
    (125185, [125219]), (125186, [125220]), (125187, [125221]), (125188, [125222]),
    (125189, [125223]), (125190, [125224]), (125191, [125225]), (125192, [125226]),
    (125193, [125227]), (125194, [125228]), (125195, [125229]), (125196, [125230]),
    (125197, [125231]), (125198, [125232]), (125199, [125233]), (125200, [125234]),
    (125201, [125235]), (125202, [125236]), (125203, [125237]), (125204, [125238]),
    (125205, [125239]), (125206, [125240]), (125207, [125241]), (125208, [125242]),
    (125209, [125243]), (125210, [125244]), (125211, [125245]), (125212, [125246]),
    (125213, [125247]), (125214, [125248]), (125215, [125249]), (125216, [125250]),
    (125217, [125251])]

/-- Lookup in the Unicode default full lowercase mapping behind JavaScript
`String.prototype.toLowerCase`: `some v` when the default lowercase of the
code point `n` is the code point sequence `v` (different from `n` itself),
`none` when the code point is its own lowercase.  The table lists every such
code point of Unicode 14; only U+0130 maps to more than one code point.  It
is stored in ascending slices and dispatched by key range. -/
def lowerLookup (n : Nat) : Option (List Nat) :=
  if n < 386 then lowerTable1.lookup n
  else if n < 916 then lowerTable2.lookup n
  else if n < 1186 then lowerTable3.lookup n
  else if n < 4267 then lowerTable4.lookup n
  else if n < 7317 then lowerTable5.lookup n
  else if n < 7846 then lowerTable6.lookup n
  else if n < 8123 then lowerTable7.lookup n
  else if n < 11367 then lowerTable8.lookup n
  else if n < 42826 then lowerTable9.lookup n
  else if n < 66587 then lowerTable10.lookup n
  else if n < 68772 then lowerTable11.lookup n
  else lowerTable12.lookup n

/-- Slice 1 of `casedRanges`. -/
def casedRanges1 : List (Nat × Nat) := [
    (65, 90), (97, 122), (170, 170), (181, 181), (186, 186), (192, 214),
    (216, 246), (248, 442), (444, 447), (452, 659), (661, 696), (704, 705),
    (736, 740), (837, 837), (880, 883), (886, 887), (890, 893), (895, 895),
    (902, 902), (904, 906), (908, 908), (910, 929), (931, 1013), (1015, 1153),
    (1162, 1327), (1329, 1366), (1376, 1416), (4256, 4293), (4295, 4295), (4301, 4301),
    (4304, 4346), (4349, 4351), (5024, 5109), (5112, 5117), (7296, 7304), (7312, 7354),
    (7357, 7359), (7424, 7615), (7680, 7957), (7960, 7965), (7968, 8005), (8008, 8013),
    (8016, 8023), (8025, 8025), (8027, 8027), (8029, 8029), (8031, 8061), (8064, 8116),
    (8118, 8124), (8126, 8126), (8130, 8132), (8134, 8140), (8144, 8147), (8150, 8155),
    (8160, 8172), (8178, 8180), (8182, 8188), (8305, 8305), (8319, 8319), (8336, 8348),
    (8450, 8450), (8455, 8455), (8458, 8467), (8469, 8469), (8473, 8477), (8484, 8484),
    (8486, 8486), (8488, 8488), (8490, 8493), (8495, 8500), (8505, 8505), (8508, 8511),
    (8517, 8521), (8526, 8526), (8544, 8575), (8579, 8580), (9398, 9449), (11264, 11492),
    (11499, 11502), (11506, 11507)]

/-- Slice 2 of `casedRanges`. -/
def casedRanges2 : List (Nat × Nat) := [
    (11520, 11557), (11559, 11559), (11565, 11565), (42560, 42605), (42624, 42653), (42786, 42887),
    (42891, 42894), (42896, 42954), (42960, 42961), (42963, 42963), (42965, 42969), (42997, 42998),
    (43000, 43002), (43824, 43866), (43868, 43880), (43888, 43967), (64256, 64262), (64275, 64279),
    (65313, 65338), (65345, 65370), (66560, 66639), (66736, 66771), (66776, 66811), (66928, 66938),
    (66940, 66954), (66956, 66962), (66964, 66965), (66967, 66977), (66979, 66993), (66995, 67001),
    (67003, 67004), (67456, 67456), (67459, 67461), (67463, 67504), (67506, 67514), (68736, 68786),
    (68800, 68850), (71840, 71903), (93760, 93823), (119808, 119892), (119894, 119964), (119966, 119967),
    (119970, 119970), (119973, 119974), (119977, 119980), (119982, 119993), (119995, 119995), (119997, 120003),
    (120005, 120069), (120071, 120074), (120077, 120084), (120086, 120092), (120094, 120121), (120123, 120126),
    (120128, 120132), (120134, 120134), (120138, 120144), (120146, 120485), (120488, 120512), (120514, 120538),
    (120540, 120570), (120572, 120596), (120598, 120628), (120630, 120654), (120656, 120686), (120688, 120712),
    (120714, 120744), (120746, 120770), (120772, 120779), (122624, 122633), (122635, 122654), (125184, 125251),
    (127280, 127305), (127312, 127337), (127344, 127369)]

/-- The code point ranges of the Unicode `Cased` property (lowercase,
uppercase and titlecase letters), used by the `Final_Sigma` context
condition of the lowercase conversion. -/
def casedRanges : List (Nat × Nat) :=
  casedRanges1 ++ casedRanges2

/-- Slice 1 of `caseIgnorableRanges`. -/
def caseIgnorableRanges1 : List (Nat × Nat) := [
    (39, 39), (46, 46), (58, 58), (94, 94), (96, 96), (168, 168),
    (173, 173), (175, 175), (180, 180), (183, 184), (688, 879), (884, 885),
    (890, 890), (900, 901), (903, 903), (1155, 1161), (1369, 1369), (1425, 1469),
    (1471, 1471), (1473, 1474), (1476, 1477), (1479, 1479), (1524, 1524), (1536, 1541),
    (1552, 1562), (1564, 1564), (1600, 1600), (1611, 1631), (1648, 1648), (1750, 1757),
    (1759, 1768), (1770, 1773), (1807, 1807), (1809, 1809), (1840, 1866), (1958, 1968),
    (2027, 2037), (2042, 2042), (2045, 2045), (2070, 2093), (2137, 2139), (2184, 2184),
    (2192, 2193), (2200, 2207), (2249, 2306), (2362, 2362), (2364, 2364), (2369, 2376),
    (2381, 2381), (2385, 2391), (2402, 2403), (2417, 2417), (2433, 2433), (2492, 2492),
    (2497, 2500), (2509, 2509), (2530, 2531), (2558, 2558), (2561, 2562), (2620, 2620),
    (2625, 2626), (2631, 2632), (2635, 2637), (2641, 2641), (2672, 2673), (2677, 2677),
    (2689, 2690), (2748, 2748), (2753, 2757), (2759, 2760), (2765, 2765), (2786, 2787),
    (2810, 2815), (2817, 2817), (2876, 2876), (2879, 2879), (2881, 2884), (2893, 2893),
    (2901, 2902), (2914, 2915)]

/-- Slice 2 of `caseIgnorableRanges`. -/
def caseIgnorableRanges2 : List (Nat × Nat) := [
    (2946, 2946), (3008, 3008), (3021, 3021), (3072, 3072), (3076, 3076), (3132, 3132),
    (3134, 3136), (3142, 3144), (3146, 3149), (3157, 3158), (3170, 3171), (3201, 3201),
    (3260, 3260), (3263, 3263), (3270, 3270), (3276, 3277), (3298, 3299), (3328, 3329),
    (3387, 3388), (3393, 3396), (3405, 3405), (3426, 3427), (3457, 3457), (3530, 3530),
    (3538, 3540), (3542, 3542), (3633, 3633), (3636, 3642), (3654, 3662), (3761, 3761),
    (3764, 3772), (3782, 3782), (3784, 3789), (3864, 3865), (3893, 3893), (3895, 3895),
    (3897, 3897), (3953, 3966), (3968, 3972), (3974, 3975), (3981, 3991), (3993, 4028),
    (4038, 4038), (4141, 4144), (4146, 4151), (4153, 4154), (4157, 4158), (4184, 4185),
    (4190, 4192), (4209, 4212), (4226, 4226), (4229, 4230), (4237, 4237), (4253, 4253),
    (4348, 4348), (4957, 4959), (5906, 5908), (5938, 5939), (5970, 5971), (6002, 6003),
    (6068, 6069), (6071, 6077), (6086, 6086), (6089, 6099), (6103, 6103), (6109, 6109),
    (6155, 6159), (6211, 6211), (6277, 6278), (6313, 6313), (6432, 6434), (6439, 6440),
    (6450, 6450), (6457, 6459), (6679, 6680), (6683, 6683), (6742, 6742), (6744, 6750),
    (6752, 6752), (6754, 6754)]

/-- Slice 3 of `caseIgnorableRanges`. -/
def caseIgnorableRanges3 : List (Nat × Nat) := [
    (6757, 6764), (6771, 6780), (6783, 6783), (6823, 6823), (6832, 6862), (6912, 6915),
    (6964, 6964), (6966, 6970), (6972, 6972), (6978, 6978), (7019, 7027), (7040, 7041),
    (7074, 7077), (7080, 7081), (7083, 7085), (7142, 7142), (7144, 7145), (7149, 7149),
    (7151, 7153), (7212, 7219), (7222, 7223), (7288, 7293), (7376, 7378), (7380, 7392),
    (7394, 7400), (7405, 7405), (7412, 7412), (7416, 7417), (7468, 7530), (7544, 7544),
    (7579, 7679), (8125, 8125), (8127, 8129), (8141, 8143), (8157, 8159), (8173, 8175),
    (8189, 8190), (8203, 8207), (8216, 8217), (8228, 8228), (8231, 8231), (8234, 8238),
    (8288, 8292), (8294, 8303), (8305, 8305), (8319, 8319), (8336, 8348), (8400, 8432),
    (11388, 11389), (11503, 11505), (11631, 11631), (11647, 11647), (11744, 11775), (11823, 11823),
    (12293, 12293), (12330, 12333), (12337, 12341), (12347, 12347), (12441, 12446), (12540, 12542),
    (40981, 40981), (42232, 42237), (42508, 42508), (42607, 42610), (42612, 42621), (42623, 42623),
    (42652, 42655), (42736, 42737), (42752, 42785), (42864, 42864), (42888, 42890), (42994, 42996),
    (43000, 43001), (43010, 43010), (43014, 43014), (43019, 43019), (43045, 43046), (43052, 43052),
    (43204, 43205), (43232, 43249)]

/-- Slice 4 of `caseIgnorableRanges`. -/
def caseIgnorableRanges4 : List (Nat × Nat) := [
    (43263, 43263), (43302, 43309), (43335, 43345), (43392, 43394), (43443, 43443), (43446, 43449),
    (43452, 43453), (43471, 43471), (43493, 43494), (43561, 43566), (43569, 43570), (43573, 43574),
    (43587, 43587), (43596, 43596), (43632, 43632), (43644, 43644), (43696, 43696), (43698, 43700),
    (43703, 43704), (43710, 43711), (43713, 43713), (43741, 43741), (43756, 43757), (43763, 43764),
    (43766, 43766), (43867, 43871), (43881, 43883), (44005, 44005), (44008, 44008), (44013, 44013),
    (64286, 64286), (64434, 64450), (65024, 65039), (65043, 65043), (65056, 65071), (65106, 65106),
    (65109, 65109), (65279, 65279), (65287, 65287), (65294, 65294), (65306, 65306), (65342, 65342),
    (65344, 65344), (65392, 65392), (65438, 65439), (65507, 65507), (65529, 65531), (66045, 66045),
    (66272, 66272), (66422, 66426), (67456, 67461), (67463, 67504), (67506, 67514), (68097, 68099),
    (68101, 68102), (68108, 68111), (68152, 68154), (68159, 68159), (68325, 68326), (68900, 68903),
    (69291, 69292), (69446, 69456), (69506, 69509), (69633, 69633), (69688, 69702), (69744, 69744),
    (69747, 69748), (69759, 69761), (69811, 69814), (69817, 69818), (69821, 69821), (69826, 69826),
    (69837, 69837), (69888, 69890), (69927, 69931), (69933, 69940), (70003, 70003), (70016, 70017),
    (70070, 70078), (70089, 70092)]

/-- Slice 5 of `caseIgnorableRanges`. -/
def caseIgnorableRanges5 : List (Nat × Nat) := [
    (70095, 70095), (70191, 70193), (70196, 70196), (70198, 70199), (70206, 70206), (70367, 70367),
    (70371, 70378), (70400, 70401), (70459, 70460), (70464, 70464), (70502, 70508), (70512, 70516),
    (70712, 70719), (70722, 70724), (70726, 70726), (70750, 70750), (70835, 70840), (70842, 70842),
    (70847, 70848), (70850, 70851), (71090, 71093), (71100, 71101), (71103, 71104), (71132, 71133),
    (71219, 71226), (71229, 71229), (71231, 71232), (71339, 71339), (71341, 71341), (71344, 71349),
    (71351, 71351), (71453, 71455), (71458, 71461), (71463, 71467), (71727, 71735), (71737, 71738),
    (71995, 71996), (71998, 71998), (72003, 72003), (72148, 72151), (72154, 72155), (72160, 72160),
    (72193, 72202), (72243, 72248), (72251, 72254), (72263, 72263), (72273, 72278), (72281, 72283),
    (72330, 72342), (72344, 72345), (72752, 72758), (72760, 72765), (72767, 72767), (72850, 72871),
    (72874, 72880), (72882, 72883), (72885, 72886), (73009, 73014), (73018, 73018), (73020, 73021),
    (73023, 73029), (73031, 73031), (73104, 73105), (73109, 73109), (73111, 73111), (73459, 73460),
    (78896, 78904), (92912, 92916), (92976, 92982), (92992, 92995), (94031, 94031), (94095, 94111),
    (94176, 94177), (94179, 94180), (110576, 110579), (110581, 110587), (110589, 110590), (113821, 113822),
    (113824, 113827), (118528, 118573)]

/-- Slice 6 of `caseIgnorableRanges`. -/
def caseIgnorableRanges6 : List (Nat × Nat) := [
    (118576, 118598), (119143, 119145), (119155, 119170), (119173, 119179), (119210, 119213), (119362, 119364),
    (121344, 121398), (121403, 121452), (121461, 121461), (121476, 121476), (121499, 121503), (121505, 121519),
    (122880, 122886), (122888, 122904), (122907, 122913), (122915, 122916), (122918, 122922), (123184, 123197),
    (123566, 123566), (123628, 123631), (125136, 125142), (125252, 125259), (127995, 127999), (917505, 917505),
    (917536, 917631), (917760, 917999)]

/-- The code point ranges of the Unicode `Case_Ignorable` property
(categories `Mn`, `Me`, `Cf`, `Lm`, `Sk` together with the word-break
punctuation), used by the `Final_Sigma` context condition. -/
def caseIgnorableRanges : List (Nat × Nat) :=
  caseIgnorableRanges1 ++ caseIgnorableRanges2 ++ caseIgnorableRanges3 ++ caseIgnorableRanges4 ++ caseIgnorableRanges5 ++ caseIgnorableRanges6

/-- Membership of a code point in a list of inclusive ranges. -/
def inRanges (rs : List (Nat × Nat)) (n : Nat) : Bool :=
  rs.any (fun p => decide (p.1 ≤ n) && decide (n ≤ p.2))

/-- The Unicode `Cased` property of a character. -/
def isCased (c : Char) : Bool := inRanges casedRanges c.toNat

/-- The Unicode `Case_Ignorable` property of a character. -/
def isCaseIgnorable (c : Char) : Bool := inRanges caseIgnorableRanges c.toNat

/-- Whether the first character after an initial run of case-ignorable
characters exists and is cased. -/
def casedAfterIgnorables (l : List Char) : Bool :=
  match l.dropWhile isCaseIgnorable with
  | [] => false
  | c :: _ => isCased c

/-- The `Final_Sigma` context condition of Unicode case conversion at a
position whose preceding characters (nearest first) are `prev` and whose
following characters are `next`: a cased character before, no cased
character after, skipping case-ignorable characters on both sides. -/
def finalSigma (prev next : List Char) : Bool :=
  casedAfterIgnorables prev && ! casedAfterIgnorables next

/-- The context-free lowercase of one character: its table mapping when it
has one, the character itself otherwise. -/
def simpleLower (c : Char) : List Char :=
  match lowerLookup c.toNat with
  | some v => v.map Char.ofNat
  | none => [c]

/-- One left-to-right pass of the Unicode default lowercase conversion:
`prev` holds the characters already passed (nearest first) so that the
`Final_Sigma` condition for capital sigma can see its context; every other
character is lowered by the context-free table. -/
def lowerGo (prev : List Char) : List Char → List Char
  | [] => []
  | c :: rest =>
    (if c = 'Σ' then (if finalSigma prev rest then ['ς'] else ['σ'])
      else simpleLower c)
      ++ lowerGo (c :: prev) rest

/-- JavaScript `String.prototype.toLowerCase`: the Unicode default full
lowercase conversion (the per-code-point table together with the
`Final_Sigma` rule for capital sigma). -/
def jsToLowerCase (s : List Char) : List Char := lowerGo [] s

/-- `normalizeForSearch` from `src/lib/songs.ts`: `toLowerCase` first, then
the six single-character replacements in source order (`ɛ`, `Ɛ`, `ɔ`, `Ɔ`,
`ŋ`, `Ŋ`). -/
def normalizeForSearch (text : List Char) : List Char :=
  replaceChar 'Ŋ' ['n']
    (replaceChar 'ŋ' ['n']
      (replaceChar 'Ɔ' ['o']
        (replaceChar 'ɔ' ['o']
          (replaceChar 'Ɛ' ['e']
            (replaceChar 'ɛ' ['e']
              (jsToLowerCase text))))))

/-- The per-character entity map that `escapeXml` realizes: each of the five
XML special characters goes to its entity, every other character is kept. -/
def escChar (c : Char) : List Char :=
  if c = '&' then "&amp;".toList
  else if c = '<' then "&lt;".toList
  else if c = '>' then "&gt;".toList
  else if c = '\"' then "&quot;".toList
  else if c = apos then "&apos;".toList
  else [c]

theorem replaceChar_append (c : Char) (r a b : List Char) :
    replaceChar c r (a ++ b) = replaceChar c r a ++ replaceChar c r b := by
  induction a with
  | nil => rfl
  | cons d t ih => simp [replaceChar, ih]

theorem escapeXml_cons (c : Char) (t : List Char) :
    escapeXml (c :: t) = escChar c ++ escapeXml t := by
  show escapeXml ([c] ++ t) = escChar c ++ escapeXml t
  unfold escapeXml
  rw [replaceChar_append, replaceChar_append, replaceChar_append,
    replaceChar_append, replaceChar_append]
  congr 1
  by_cases h1 : c = '&'
  · subst h1; decide
  by_cases h2 : c = '<'
  · subst h2; decide
  by_cases h3 : c = '>'
  · subst h3; decide
  by_cases h4 : c = '\"'
  · subst h4; decide
  by_cases h5 : c = apos
  · subst h5; decide
  simp [replaceChar, escChar, h1, h2, h3, h4, h5]

theorem escapeXml_eq_flatMap (s : List Char) :
    escapeXml s = s.flatMap escChar := by
  induction s with
  | nil => rfl
  | cons c t ih => rw [escapeXml_cons, ih, List.flatMap_cons]

/-- The title `O'Brien & <Sons>` used as the escaping test vector. -/
def sampleTitle : List Char := "O".toList ++ [apos] ++ "Brien & <Sons>".toList

/-- Claim C1: `escapeXml` replaces `&` first and then `<`, `>`, `"`, `'`,
mapping them to `&amp;`, `&lt;`, `&gt;`, `&quot;`, `&apos;`; because `&` is
replaced first, no inserted entity is escaped again, so the whole
substitution acts as the independent per-character entity map `escChar`;
on the title `O'Brien & <Sons>` it yields `O&apos;Brien &amp; &lt;Sons&gt;`. -/
theorem escapeXml_entity_map_and_sample :
    (∀ s : List Char, escapeXml s = s.flatMap escChar) ∧
      escapeXml sampleTitle = "O&apos;Brien &amp; &lt;Sons&gt;".toList :=
  ⟨escapeXml_eq_flatMap, by decide⟩

/-- `prefOf p s` decides whether `p` is a character-wise prefix of `s`. -/
def prefOf : List Char → List Char → Bool
  | [], _ => true
  | _ :: _, [] => false
  | p :: ps, c :: cs => if p = c then prefOf ps cs else false

/-- Number of positions of `s` at which the pattern `pat` occurs
(occurrences may overlap). -/
def countOccur (pat : List Char) : List Char → Nat
  | [] => 0
  | c :: t => (if prefOf pat (c :: t) then 1 else 0) + countOccur pat t

/-- Number of positions inside `a` at which `pat` occurs in `a ++ b`
(occurrences may run over into `b`). -/
def countOccurIn (pat : List Char) : List Char → List Char → Nat
  | [], _ => 0
  | c :: t, b => (if prefOf pat ((c :: t) ++ b) then 1 else 0) + countOccurIn pat t b

theorem countOccur_append (pat a b : List Char) :
    countOccur pat (a ++ b) = countOccurIn pat a b + countOccur pat b := by
  induction a with
  | nil => simp [countOccurIn]
  | cons c t ih => simp [countOccur, countOccurIn, ih]; omega

theorem prefOf_append_of_le (pat : List Char) :
    ∀ s b : List Char, pat.length ≤ s.length → prefOf pat (s ++ b) = prefOf pat s := by
  induction pat with
  | nil => intro s b _; cases s <;> rfl
  | cons p ps ih =>
    intro s b h
    cases s with
    | nil => simp at h
    | cons c t =>
      simp only [List.cons_append, prefOf, List.append_eq]
      rw [ih t b (by simpa using h)]

theorem prefOf_false_of_lt (pat : List Char) :
    ∀ s : List Char, s.length < pat.length → prefOf pat s = false := by
  induction pat with
  | nil => intro s h; simp at h
  | cons p ps ih =>
    intro s h
    cases s with
    | nil => rfl
    | cons c t =>
      simp only [prefOf]
      rw [ih t (by simpa using h)]
      simp

theorem prefOf_take (pat : List Char) : ∀ s b : List Char,
    prefOf pat (s ++ b) = true → prefOf (pat.take s.length) s = true := by
  induction pat with
  | nil => intro s b h; cases s <;> simp_all [prefOf]
  | cons p ps ih =>
    intro s b h
    cases s with
    | nil => rfl
    | cons c t =>
      simp only [List.cons_append, prefOf] at h
      by_cases hpc : p = c
      · subst hpc
        simp only [prefOf] at h
        simp only [List.length_cons, List.take_succ_cons, prefOf, if_pos rfl]
        exact ih t b h
      · simp [hpc] at h

theorem suffix_eq_drop (s L : List Char) (h : s <:+ L) :
    s = L.drop (L.length - s.length) := by
  obtain ⟨t, rfl⟩ := h
  simp [List.length_append]

theorem countOccurIn_eq_countOccur (pat : List Char) :
    ∀ (a b : List Char),
      (∀ s, s <:+ a → s ≠ [] → s.length < pat.length → prefOf pat (s ++ b) = false) →
      countOccurIn pat a b = countOccur pat a := by
  intro a
  induction a with
  | nil => intro b _; rfl
  | cons c t ih =>
    intro b h
    have hrec : countOccurIn pat t b = countOccur pat t :=
      ih b (fun s hs hne hlen => h s (hs.trans (List.suffix_cons c t)) hne hlen)
    have heq : prefOf pat ((c :: t) ++ b) = prefOf pat (c :: t) := by
      by_cases hl : pat.length ≤ (c :: t).length
      · exact prefOf_append_of_le pat (c :: t) b hl
      · push_neg at hl
        rw [h (c :: t) (List.suffix_refl _) (by simp) hl,
          prefOf_false_of_lt pat (c :: t) hl]
    simp only [countOccurIn, countOccur, heq, hrec]

theorem countOccurIn_eq_of_checks (pat L b : List Char)
    (h : ∀ k, k < pat.length → 0 < k → k ≤ L.length →
      prefOf (pat.take k) (L.drop (L.length - k)) = false) :
    countOccurIn pat L b = countOccur pat L := by
  apply countOccurIn_eq_countOccur
  intro s hs hne hlen
  have hlep : s.length ≤ L.length := hs.length_le
  have h0 : 0 < s.length := List.length_pos.mpr hne
  have hd : s = L.drop (L.length - s.length) := suffix_eq_drop s L hs
  have hfalse : prefOf (pat.take s.length) s = false := by
    have := h s.length hlen h0 hlep
    rw [← hd] at this
    exact this
  cases hp : prefOf pat (s ++ b)
  · rfl
  · have := prefOf_take pat s b hp
    rw [hfalse] at this
    exact absurd this (by simp)

theorem countOccurIn_head_not_mem (c0 : Char) (ps : List Char) :
    ∀ (u b : List Char), c0 ∉ u → countOccurIn (c0 :: ps) u b = 0 := by
  intro u
  induction u with
  | nil => intro b _; rfl
  | cons d t ih =>
    intro b h
    have hd : ¬ (c0 = d) := fun he => h (he ▸ List.mem_cons_self d t)
    have ht : c0 ∉ t := fun he => h (List.mem_cons_of_mem d he)
    simp [countOccurIn, prefOf, hd, ih b ht]

/-- Every occurrence of `<` in the list begins the fixed five-character
sequence `<br/>`; this is the shape of the serialized lyrics body, where the
only `<` characters are the line-break substitutes. -/
def ltOnlyBr : List Char → Bool
  | [] => true
  | c :: t => (c != '<' || t.take 4 == "br/>".toList) && ltOnlyBr t

theorem countOccurIn_ltOnlyBr (c2 : Char) (ps : List Char) (hc2 : c2 ≠ 'b') :
    ∀ (u b : List Char), ltOnlyBr u = true → countOccurIn ('<' :: c2 :: ps) u b = 0 := by
  intro u
  induction u with
  | nil => intro b _; rfl
  | cons d t ih =>
    intro b hu
    rw [ltOnlyBr, Bool.and_eq_true] at hu
    obtain ⟨h1, h2⟩ := hu
    have hpref : prefOf ('<' :: c2 :: ps) (d :: (t ++ b)) = false := by
      by_cases hd : d = '<'
      · subst hd
        have h4 : t.take 4 = "br/>".toList := by
          rcases (Bool.or_eq_true _ _).mp h1 with hx | hx
          · simp at hx
          · exact beq_iff_eq.mp hx
        rw [show "br/>".toList = ['b', 'r', '/', '>'] from rfl] at h4
        cases t with
        | nil => simp at h4
        | cons e t2 =>
          simp only [List.take_succ_cons, List.cons.injEq] at h4
          obtain ⟨he, -⟩ := h4
          subst he
          simp [prefOf, hc2]
      · have : ¬ ('<' = d) := fun he => hd he.symm
        simp [prefOf, this]
    simp [countOccurIn, hpref, ih b h2]

/-- Every occurrence of `&` in the list begins one of the five XML entities
`&amp;`, `&lt;`, `&gt;`, `&quot;`, `&apos;`. -/
def ampOk : List Char → Bool
  | [] => true
  | c :: t =>
    (c != '&' || (t.take 4 == "amp;".toList || t.take 3 == "lt;".toList
      || t.take 3 == "gt;".toList || t.take 5 == "quot;".toList
      || t.take 5 == "apos;".toList)) && ampOk t

theorem take_eq_of_take_append {t y : List Char} {n : Nat} {v : List Char}
    (h : t.take n = v) (hn : v.length = n) : (t ++ y).take n = v := by
  have hlen : n ≤ t.length := by
    have := congrArg List.length h
    simp [List.length_take] at this
    omega
  rw [List.take_append_of_le_length hlen, h]

theorem ampOk_append (x y : List Char) (hx : ampOk x = true) (hy : ampOk y = true) :
    ampOk (x ++ y) = true := by
  induction x with
  | nil => simpa using hy
  | cons c t ih =>
    rw [ampOk, Bool.and_eq_true] at hx
    obtain ⟨h1, h2⟩ := hx
    rw [List.cons_append, ampOk, Bool.and_eq_true]
    refine ⟨?_, ih h2⟩
    by_cases hc : c = '&'
    · subst hc
      simp only [bne_self_eq_false, Bool.false_or] at h1 ⊢
      simp only [Bool.or_eq_true, beq_iff_eq] at h1 ⊢
      rcases h1 with (((h | h) | h) | h) | h
      · exact Or.inl (Or.inl (Or.inl (Or.inl (take_eq_of_take_append h (by rfl)))))
      · exact Or.inl (Or.inl (Or.inl (Or.inr (take_eq_of_take_append h (by rfl)))))
      · exact Or.inl (Or.inl (Or.inr (take_eq_of_take_append h (by rfl))))
      · exact Or.inl (Or.inr (take_eq_of_take_append h (by rfl)))
      · exact Or.inr (take_eq_of_take_append h (by rfl))
    · simp [hc]

theorem ampOk_flatMap (f : Char → List Char) (hf : ∀ c, ampOk (f c) = true) :
    ∀ l : List Char, ampOk (l.flatMap f) = true := by
  intro l
  induction l with
  | nil => rfl
  | cons c t ih => rw [List.flatMap_cons]; exact ampOk_append _ _ (hf c) ih

theorem ltOnlyBr_append (x y : List Char) (hx : ltOnlyBr x = true)
    (hy : ltOnlyBr y = true) : ltOnlyBr (x ++ y) = true := by
  induction x with
  | nil => simpa using hy
  | cons c t ih =>
    rw [ltOnlyBr, Bool.and_eq_true] at hx
    obtain ⟨h1, h2⟩ := hx
    rw [List.cons_append, ltOnlyBr, Bool.and_eq_true]
    refine ⟨?_, ih h2⟩
    by_cases hc : c = '<'
    · subst hc
      simp only [bne_self_eq_false, Bool.false_or] at h1 ⊢
      simp only [beq_iff_eq] at h1 ⊢
      exact take_eq_of_take_append h1 (by rfl)
    · simp [hc]

theorem ltOnlyBr_flatMap (f : Char → List Char) (hf : ∀ c, ltOnlyBr (f c) = true) :
    ∀ l : List Char, ltOnlyBr (l.flatMap f) = true := by
  intro l
  induction l with
  | nil => rfl
  | cons c t ih => rw [List.flatMap_cons]; exact ltOnlyBr_append _ _ (hf c) ih

/-- The lyrics character data of the OpenLyrics output: lyrics escaped by
`escapeXml`, then every newline replaced by `<br/>`. -/
def xmlBody (l : List Char) : List Char :=
  replaceChar '\n' "<br/>".toList (escapeXml l)

/-- The per-character map realized by the lyrics body serialization: a
newline becomes the `<br/>` markup, every other character goes through the
entity map `escChar`. -/
def bodyChar (c : Char) : List Char :=
  if c = '\n' then "<br/>".toList else escChar c

theorem xmlBody_eq_flatMap (l : List Char) : xmlBody l = l.flatMap bodyChar := by
  unfold xmlBody
  rw [escapeXml_eq_flatMap]
  induction l with
  | nil => rfl
  | cons c t ih =>
    rw [List.flatMap_cons, List.flatMap_cons, replaceChar_append, ih]
    congr 1
    by_cases h0 : c = '\n'
    · subst h0; decide
    rw [show bodyChar c = escChar c from if_neg h0]
    by_cases h1 : c = '&'
    · subst h1; decide
    by_cases h2 : c = '<'
    · subst h2; decide
    by_cases h3 : c = '>'
    · subst h3; decide
    by_cases h4 : c = '\"'
    · subst h4; decide
    by_cases h5 : c = apos
    · subst h5; decide
    simp [escChar, replaceChar, h0, h1, h2, h3, h4, h5]

theorem not_mem_flatMap_of (x : Char) (f : Char → List Char)
    (hf : ∀ c, x ∉ f c) (l : List Char) : x ∉ l.flatMap f := by
  intro hx
  rcases List.mem_flatMap.mp hx with ⟨c, -, hc⟩
  exact hf c hc

theorem lt_not_mem_escChar (c : Char) : '<' ∉ escChar c := by
  unfold escChar
  split_ifs with h1 h2 h3 h4 h5
  · decide
  · decide
  · decide
  · decide
  · decide
  · simp only [List.mem_singleton]
    exact fun he => h2 he.symm

theorem gt_not_mem_escChar (c : Char) : '>' ∉ escChar c := by
  unfold escChar
  split_ifs with h1 h2 h3 h4 h5
  · decide
  · decide
  · decide
  · decide
  · decide
  · simp only [List.mem_singleton]
    exact fun he => h3 he.symm

theorem quot_not_mem_escChar (c : Char) : '\"' ∉ escChar c := by
  unfold escChar
  split_ifs with h1 h2 h3 h4 h5
  · decide
  · decide
  · decide
  · decide
  · decide
  · simp only [List.mem_singleton]
    exact fun he => h4 he.symm

theorem lt_not_mem_escapeXml (s : List Char) : '<' ∉ escapeXml s := by
  rw [escapeXml_eq_flatMap]
  exact not_mem_flatMap_of _ _ lt_not_mem_escChar s

theorem gt_not_mem_escapeXml (s : List Char) : '>' ∉ escapeXml s := by
  rw [escapeXml_eq_flatMap]
  exact not_mem_flatMap_of _ _ gt_not_mem_escChar s

theorem quot_not_mem_escapeXml (s : List Char) : '\"' ∉ escapeXml s := by
  rw [escapeXml_eq_flatMap]
  exact not_mem_flatMap_of _ _ quot_not_mem_escChar s

theorem quot_not_mem_bodyChar (c : Char) : '\"' ∉ bodyChar c := by
  unfold bodyChar
  by_cases h0 : c = '\n'
  · rw [if_pos h0]; decide
  · rw [if_neg h0]; exact quot_not_mem_escChar c

theorem ampOk_escChar (c : Char) : ampOk (escChar c) = true := by
  unfold escChar
  split_ifs with h1 h2 h3 h4 h5
  · decide
  · decide
  · decide
  · decide
  · decide
  · simp [ampOk, bne_iff_ne, h1]

theorem ampOk_bodyChar (c : Char) : ampOk (bodyChar c) = true := by
  unfold bodyChar
  by_cases h0 : c = '\n'
  · rw [if_pos h0]; decide
  · rw [if_neg h0]; exact ampOk_escChar c

theorem ltOnlyBr_bodyChar (c : Char) : ltOnlyBr (bodyChar c) = true := by
  unfold bodyChar
  by_cases h0 : c = '\n'
  · rw [if_pos h0]; decide
  rw [if_neg h0]
  unfold escChar
  split_ifs with h1 h2 h3 h4 h5
  · decide
  · decide
  · decide
  · decide
  · decide
  · simp [ltOnlyBr, bne_iff_ne, h2]

theorem ampOk_escapeXml (s : List Char) : ampOk (escapeXml s) = true := by
  rw [escapeXml_eq_flatMap]
  exact ampOk_flatMap _ ampOk_escChar s

theorem ampOk_xmlBody (l : List Char) : ampOk (xmlBody l) = true := by
  rw [xmlBody_eq_flatMap]
  exact ampOk_flatMap _ ampOk_bodyChar l

theorem ltOnlyBr_xmlBody (l : List Char) : ltOnlyBr (xmlBody l) = true := by
  rw [xmlBody_eq_flatMap]
  exact ltOnlyBr_flatMap _ ltOnlyBr_bodyChar l

theorem quot_not_mem_xmlBody (l : List Char) : '\"' ∉ xmlBody l := by
  rw [xmlBody_eq_flatMap]
  exact not_mem_flatMap_of _ _ quot_not_mem_bodyChar l

theorem countOccur_xml_pieces (song : Song) (c2 : Char) (ps : List Char) (hc2 : c2 ≠ 'b')
    (hA : ∀ k, k < ('<' :: c2 :: ps).length → 0 < k → k ≤ xmlA.length →
      prefOf (('<' :: c2 :: ps).take k) (xmlA.drop (xmlA.length - k)) = false)
    (hB : ∀ k, k < ('<' :: c2 :: ps).length → 0 < k → k ≤ xmlB.length →
      prefOf (('<' :: c2 :: ps).take k) (xmlB.drop (xmlB.length - k)) = false)
    (hC : ∀ k, k < ('<' :: c2 :: ps).length → 0 < k → k ≤ xmlC.length →
      prefOf (('<' :: c2 :: ps).take k) (xmlC.drop (xmlC.length - k)) = false) :
    countOccur ('<' :: c2 :: ps) (generateOpenLyricsXML song)
      = countOccur ('<' :: c2 :: ps) xmlA + countOccur ('<' :: c2 :: ps) xmlB
        + countOccur ('<' :: c2 :: ps) xmlC + countOccur ('<' :: c2 :: ps) xmlD := by
  have hxml : generateOpenLyricsXML song
      = xmlA ++ (escapeXml song.title ++ (xmlB ++ (escapeXml (orUnknown song.artist)
          ++ (xmlC ++ (xmlBody song.lyrics ++ xmlD))))) := by
    simp [generateOpenLyricsXML, xmlBody, List.append_assoc]
  rw [hxml]
  rw [countOccur_append, countOccur_append, countOccur_append, countOccur_append,
    countOccur_append, countOccur_append]
  rw [countOccurIn_eq_of_checks _ _ _ hA, countOccurIn_eq_of_checks _ _ _ hB,
    countOccurIn_eq_of_checks _ _ _ hC,
    countOccurIn_head_not_mem '<' _ _ _ (lt_not_mem_escapeXml song.title),
    countOccurIn_head_not_mem '<' _ _ _ (lt_not_mem_escapeXml (orUnknown song.artist)),
    countOccurIn_ltOnlyBr c2 ps hc2 _ _ (ltOnlyBr_xmlBody song.lyrics)]
  omega

set_option maxRecDepth 40000 in
/-- Claim C2: `generateOpenLyricsXML` places the entire serialized lyrics
body (escaped, each newline replaced by `<br/>`) inside the one verse
element named `v1`: the document decomposes around the fixed template, and
the patterns `<verse`, `<verse name="v1">` and `</verse>` each occur exactly
once in the whole output, so the lyrics are never split into several verse
elements, however many paragraphs they contain. -/
theorem generateOpenLyricsXML_single_verse (song : Song) :
    generateOpenLyricsXML song
        = xmlA ++ escapeXml song.title ++ xmlB ++ escapeXml (orUnknown song.artist)
            ++ xmlC ++ xmlBody song.lyrics ++ xmlD
      ∧ countOccur "<verse".toList (generateOpenLyricsXML song) = 1
      ∧ countOccur "<verse name=\"v1\">".toList (generateOpenLyricsXML song) = 1
      ∧ countOccur "</verse>".toList (generateOpenLyricsXML song) = 1 := by
  refine ⟨rfl, ?_, ?_, ?_⟩
  · rw [show "<verse".toList = '<' :: 'v' :: "erse".toList from rfl,
      countOccur_xml_pieces song 'v' "erse".toList (by decide)
        (by decide) (by decide) (by decide)]
    decide
  · rw [show "<verse name=\"v1\">".toList = '<' :: 'v' :: "erse name=\"v1\">".toList from rfl,
      countOccur_xml_pieces song 'v' "erse name=\"v1\">".toList (by decide)
        (by decide) (by decide) (by decide)]
    decide
  · rw [show "</verse>".toList = '<' :: '/' :: "verse>".toList from rfl,
      countOccur_xml_pieces song '/' "verse>".toList (by decide)
        (by decide) (by decide) (by decide)]
    decide

/-- Claim C10: in the OpenLyrics output the character data of the `<title>`,
`<author>` and `<lines>` elements is XML-safe: the escaped title and artist
contain no raw `<`, `>` or `"`, and every `&` in them begins one of the five
entities; the lyrics body is exactly the per-character image of the raw
lyrics under `bodyChar` (entities for the five specials, `<br/>` for
newlines, the character itself otherwise), every `<` in it begins the
`<br/>` markup, it contains no raw `"`, and every `&` in it begins an
entity — so arbitrary song fields cannot break the element structure. -/
theorem generateOpenLyricsXML_char_data_safe (song : Song) :
    generateOpenLyricsXML song
        = xmlA ++ escapeXml song.title ++ xmlB ++ escapeXml (orUnknown song.artist)
            ++ xmlC ++ xmlBody song.lyrics ++ xmlD
      ∧ ('<' ∉ escapeXml song.title ∧ '>' ∉ escapeXml song.title
          ∧ '\"' ∉ escapeXml song.title ∧ ampOk (escapeXml song.title) = true)
      ∧ ('<' ∉ escapeXml (orUnknown song.artist) ∧ '>' ∉ escapeXml (orUnknown song.artist)
          ∧ '\"' ∉ escapeXml (orUnknown song.artist)
          ∧ ampOk (escapeXml (orUnknown song.artist)) = true)
      ∧ (xmlBody song.lyrics = song.lyrics.flatMap bodyChar
          ∧ ltOnlyBr (xmlBody song.lyrics) = true
          ∧ '\"' ∉ xmlBody song.lyrics ∧ ampOk (xmlBody song.lyrics) = true) :=
  ⟨rfl,
    ⟨lt_not_mem_escapeXml _, gt_not_mem_escapeXml _, quot_not_mem_escapeXml _,
      ampOk_escapeXml _⟩,
    ⟨lt_not_mem_escapeXml _, gt_not_mem_escapeXml _, quot_not_mem_escapeXml _,
      ampOk_escapeXml _⟩,
    ⟨xmlBody_eq_flatMap _, ltOnlyBr_xmlBody _, quot_not_mem_xmlBody _,
      ampOk_xmlBody _⟩⟩

/-- Split a list at every element satisfying `p`: the separators are dropped
and `n` separators produce `n + 1` (possibly empty) groups. -/
def splitSep {α : Type} (p : α → Bool) : List α → List (List α)
  | [] => [[]]
  | a :: t =>
    if p a then [] :: splitSep p t
    else
      match splitSep p t with
      | [] => [[a]]
      | g :: gs => (a :: g) :: gs

/-- The lines of a string: split at every newline character. -/
def linesOf (s : List Char) : List (List Char) :=
  splitSep (fun c => c == '\n') s

theorem splitSep_ne_nil {α : Type} (p : α → Bool) (l : List α) :
    splitSep p l ≠ [] := by
  induction l with
  | nil => simp [splitSep]
  | cons a t ih =>
    by_cases hp : p a
    · simp [splitSep, hp]
    · cases h : splitSep p t with
      | nil => exact absurd h ih
      | cons g gs => simp [splitSep, hp, h]

theorem splitSep_sep_false {α : Type} (p : α → Bool) (l : List α) :
    ∀ g ∈ splitSep p l, ∀ x ∈ g, p x = false := by
  induction l with
  | nil =>
    intro g hg x hx
    simp [splitSep] at hg
    subst hg
    simp at hx
  | cons a t ih =>
    intro g hg x hx
    by_cases hp : p a
    · simp only [splitSep, if_pos hp, List.mem_cons] at hg
      rcases hg with rfl | hg
      · simp at hx
      · exact ih g hg x hx
    · cases h : splitSep p t with
      | nil => exact absurd h (splitSep_ne_nil p t)
      | cons g0 gs =>
        simp only [splitSep, if_neg hp, h, List.mem_cons] at hg
        rcases hg with rfl | hg
        · rcases List.mem_cons.mp hx with rfl | hx0
          · simpa using hp
          · exact ih g0 (h ▸ List.mem_cons_self g0 gs) x hx0
        · exact ih g (h ▸ List.mem_cons_of_mem g0 hg) x hx

theorem splitSep_mem_orig {α : Type} (p : α → Bool) (l : List α) :
    ∀ g ∈ splitSep p l, ∀ x ∈ g, x ∈ l := by
  induction l with
  | nil =>
    intro g hg x hx
    simp [splitSep] at hg
    subst hg
    simp at hx
  | cons a t ih =>
    intro g hg x hx
    by_cases hp : p a
    · simp only [splitSep, if_pos hp, List.mem_cons] at hg
      rcases hg with rfl | hg
      · simp at hx
      · exact List.mem_cons_of_mem a (ih g hg x hx)
    · cases h : splitSep p t with
      | nil => exact absurd h (splitSep_ne_nil p t)
      | cons g0 gs =>
        simp only [splitSep, if_neg hp, h, List.mem_cons] at hg
        rcases hg with rfl | hg
        · rcases List.mem_cons.mp hx with rfl | hx0
          · exact List.mem_cons_self x t
          · exact List.mem_cons_of_mem a (ih g0 (h ▸ List.mem_cons_self g0 gs) x hx0)
        · exact List.mem_cons_of_mem a (ih g (h ▸ List.mem_cons_of_mem g0 hg) x hx)

theorem splitSep_no_sep {α : Type} (p : α → Bool) (l : List α)
    (h : ∀ x ∈ l, p x = false) : splitSep p l = [l] := by
  induction l with
  | nil => rfl
  | cons a t ih =>
    have hp : p a = false := h a (List.mem_cons_self a t)
    have ht : splitSep p t = [t] := ih fun x hx => h x (List.mem_cons_of_mem a hx)
    simp [splitSep, hp, ht]

theorem splitSep_append {α : Type} (p : α → Bool) (a b : List α)
    (ha : ∀ c ∈ a, p c = false) (x : α) (hx : p x = true) :
    splitSep p (a ++ x :: b) = a :: splitSep p b := by
  induction a with
  | nil => simp [splitSep, hx]
  | cons c t ih =>
    have hc : p c = false := ha c (List.mem_cons_self c t)
    have ht : splitSep p (t ++ x :: b) = t :: splitSep p b :=
      ih fun d hd => ha d (List.mem_cons_of_mem c hd)
    simp [splitSep, hc, ht]

/-- Join a list of pieces with the separator string `sep` between
consecutive pieces. -/
def joinWith {α : Type} (sep : List α) : List (List α) → List α
  | [] => []
  | [g] => g
  | g :: gs => g ++ sep ++ joinWith sep gs

theorem splitSep_joinWith {α : Type} (p : α → Bool) (x : α) (hx : p x = true) :
    ∀ gs : List (List α), gs ≠ [] → (∀ g ∈ gs, ∀ c ∈ g, p c = false) →
      splitSep p (joinWith [x] gs) = gs := by
  intro gs
  induction gs with
  | nil => intro h _; exact absurd rfl h
  | cons g gs ih =>
    intro _ h
    cases gs with
    | nil =>
      exact splitSep_no_sep p g (h g (List.mem_cons_self g []))
    | cons g2 rest =>
      rw [show joinWith [x] (g :: g2 :: rest) = g ++ [x] ++ joinWith [x] (g2 :: rest)
          from rfl,
        List.append_assoc, List.singleton_append,
        splitSep_append p g _ (h g (List.mem_cons_self g (g2 :: rest))) x hx,
        ih (by simp) (fun q hq c hc => h q (List.mem_cons_of_mem g hq) c hc)]

/-- Claim C4: the output of `formatForProjection` is the two header lines
`Title: <title>` and `Author: <artist or placeholder>`, then one blank line,
then the lyrics; when the title and the rendered artist contain no newline,
the line decomposition of the output is exactly those two header lines
followed by an empty line followed by the lines of the lyrics. -/
theorem formatForProjection_header_blank_lyrics (song : Song) :
    formatForProjection song
        = "Title: ".toList ++ song.title ++ "\nAuthor: ".toList ++ orUnknown song.artist
            ++ "\n\n".toList ++ song.lyrics
      ∧ ('\n' ∉ song.title → '\n' ∉ orUnknown song.artist →
          linesOf (formatForProjection song)
            = ("Title: ".toList ++ song.title)
                :: ("Author: ".toList ++ orUnknown song.artist)
                :: [] :: linesOf song.lyrics) := by
  refine ⟨rfl, fun ht ha => ?_⟩
  have hno1 : ∀ c ∈ "Title: ".toList ++ song.title, (c == '\n') = false := by
    intro c hc
    rcases List.mem_append.mp hc with hc | hc
    · have hall : ∀ x ∈ "Title: ".toList, x ≠ '\n' := by decide
      simpa using hall c hc
    · have : c ≠ '\n' := fun he => ht (he ▸ hc)
      simpa using this
  have hno2 : ∀ c ∈ "Author: ".toList ++ orUnknown song.artist, (c == '\n') = false := by
    intro c hc
    rcases List.mem_append.mp hc with hc | hc
    · have hall : ∀ x ∈ "Author: ".toList, x ≠ '\n' := by decide
      simpa using hall c hc
    · have : c ≠ '\n' := fun he => ha (he ▸ hc)
      simpa using this
  have hshape : formatForProjection song
      = ("Title: ".toList ++ song.title)
          ++ '\n' :: (("Author: ".toList ++ orUnknown song.artist)
            ++ '\n' :: ('\n' :: song.lyrics)) := by
    simp [formatForProjection, List.append_assoc]
  rw [hshape]
  unfold linesOf
  rw [splitSep_append _ _ _ hno1 '\n' rfl]
  congr 1
  rw [splitSep_append _ _ _ hno2 '\n' rfl]
  congr 1

/-- Claim C4, witness: a concrete song whose title and artist contain no
newline decomposes into the two header lines, the blank line, and the
lyrics lines. -/
theorem formatForProjection_header_blank_lyrics_witness :
    linesOf (formatForProjection
        ⟨1, "X".toList, some "Y".toList, "L1\nL2".toList, "Twi".toList, false, []⟩)
      = ("Title: X".toList) :: ("Author: Y".toList) :: [] :: linesOf "L1\nL2".toList :=
  (formatForProjection_header_blank_lyrics _).2 (by decide) (by decide)

/-- Claim C5: when the artist field is null, `formatForProjection` renders
the header line `Author: Unknown` and `generateOpenLyricsXML` serializes the
`<author>` element content as the fixed placeholder `Unknown` (which the
escaping leaves unchanged) — never a textual `null`. -/
theorem missing_artist_renders_unknown (song : Song) (h : song.artist = none) :
    formatForProjection song
        = "Title: ".toList ++ song.title ++ "\nAuthor: Unknown\n\n".toList ++ song.lyrics
      ∧ generateOpenLyricsXML song
        = xmlA ++ escapeXml song.title ++ xmlB ++ "Unknown".toList
            ++ xmlC ++ xmlBody song.lyrics ++ xmlD := by
  constructor
  · have hc : "\nAuthor: ".toList ++ ("Unknown".toList ++ ("\n\n".toList ++ song.lyrics))
        = "\nAuthor: Unknown\n\n".toList ++ song.lyrics := by
      rw [show "\nAuthor: Unknown\n\n".toList
          = "\nAuthor: ".toList ++ ("Unknown".toList ++ "\n\n".toList) from rfl]
      simp [List.append_assoc]
    simp only [formatForProjection, h, orUnknown, List.append_assoc, hc]
  · have he : escapeXml (orUnknown none) = "Unknown".toList := by decide
    simp only [generateOpenLyricsXML, xmlBody, h, he]

/-- Claim C5, witness: the placeholder rendering at a concrete song with a
null artist. -/
theorem missing_artist_renders_unknown_witness :
    formatForProjection ⟨2, "X".toList, none, "Y".toList, "Twi".toList, false, []⟩
        = "Title: ".toList ++ "X".toList ++ "\nAuthor: Unknown\n\n".toList ++ "Y".toList
      ∧ generateOpenLyricsXML ⟨2, "X".toList, none, "Y".toList, "Twi".toList, false, []⟩
        = xmlA ++ escapeXml "X".toList ++ xmlB ++ "Unknown".toList
            ++ xmlC ++ xmlBody "Y".toList ++ xmlD :=
  missing_artist_renders_unknown _ rfl

/-- Fuel-driven chunking: groups of `n + 1` consecutive elements, the last
group possibly shorter; the fuel bounds the recursion and is set to the list
length by `chunks`. -/
def chunksGo {α : Type} (n : Nat) : Nat → List α → List (List α)
  | _, [] => []
  | 0, l => [l]
  | fuel + 1, a :: t => (a :: t.take n) :: chunksGo n fuel (t.drop n)

/-- Group a list into chunks of `n + 1` consecutive elements in order; the
last chunk may be shorter. -/
def chunks {α : Type} (n : Nat) (l : List α) : List (List α) :=
  chunksGo n l.length l

theorem chunksGo_fuel {α : Type} (n : Nat) :
    ∀ (fuel : Nat) (l : List α), l.length ≤ fuel →
      chunksGo n fuel l = chunksGo n l.length l := by
  intro fuel
  induction fuel using Nat.strong_induction_on with
  | _ fuel ih =>
    intro l hl
    cases l with
    | nil => cases fuel <;> rfl
    | cons a t =>
      cases fuel with
      | zero => simp at hl
      | succ f =>
        have hf : t.length ≤ f := by simpa using hl
        have h1 : chunksGo n f (t.drop n) = chunksGo n (t.drop n).length (t.drop n) :=
          ih f (Nat.lt_succ_self f) _ (by simp only [List.length_drop]; omega)
        have h2 : chunksGo n t.length (t.drop n) = chunksGo n (t.drop n).length (t.drop n) :=
          ih t.length (Nat.lt_succ_of_le hf) _ (by simp only [List.length_drop]; omega)
        show (a :: t.take n) :: chunksGo n f (t.drop n)
            = chunksGo n (t.length + 1) (a :: t)
        rw [show chunksGo n (t.length + 1) (a :: t)
            = (a :: t.take n) :: chunksGo n t.length (t.drop n) from rfl, h1, h2]

theorem chunks_cons {α : Type} (n : Nat) (a : α) (t : List α) :
    chunks n (a :: t) = (a :: t.take n) :: chunks n (t.drop n) := by
  unfold chunks
  show (a :: t.take n) :: chunksGo n t.length (t.drop n)
      = (a :: t.take n) :: chunksGo n (t.drop n).length (t.drop n)
  rw [chunksGo_fuel n t.length (t.drop n) (by simp only [List.length_drop]; omega)]

theorem chunksGo_mem_length {α : Type} (n : Nat) :
    ∀ (fuel : Nat) (l : List α), l.length ≤ fuel →
      ∀ c ∈ chunksGo n fuel l, c.length ≤ n + 1 := by
  intro fuel
  induction fuel with
  | zero =>
    intro l hl c hc
    cases l with
    | nil => simp [chunksGo] at hc
    | cons a t => simp at hl
  | succ f ih =>
    intro l hl c hc
    cases l with
    | nil => simp [chunksGo] at hc
    | cons a t =>
      have hf : t.length ≤ f := by simpa using hl
      rcases List.mem_cons.mp hc with rfl | hc2
      · simp only [List.length_cons]
        have := List.length_take n t
        omega
      · exact ih (t.drop n) (by simp only [List.length_drop]; omega) c hc2

theorem chunks_mem_length {α : Type} (n : Nat) (l : List α) :
    ∀ c ∈ chunks n l, c.length ≤ n + 1 :=
  chunksGo_mem_length n l.length l le_rfl

theorem chunksGo_mem_ne_nil {α : Type} (n : Nat) :
    ∀ (fuel : Nat) (l : List α), ∀ c ∈ chunksGo n fuel l, c ≠ [] := by
  intro fuel
  induction fuel with
  | zero =>
    intro l c hc
    cases l with
    | nil => simp [chunksGo] at hc
    | cons a t =>
      simp only [chunksGo, List.mem_singleton] at hc
      subst hc
      simp
  | succ f ih =>
    intro l c hc
    cases l with
    | nil => simp [chunksGo] at hc
    | cons a t =>
      rcases List.mem_cons.mp hc with rfl | hc2
      · simp
      · exact ih (t.drop n) c hc2

theorem chunksGo_mem_subset {α : Type} (n : Nat) :
    ∀ (fuel : Nat) (l : List α), ∀ c ∈ chunksGo n fuel l, ∀ x ∈ c, x ∈ l := by
  intro fuel
  induction fuel with
  | zero =>
    intro l c hc x hx
    cases l with
    | nil => simp [chunksGo] at hc
    | cons a t =>
      simp only [chunksGo, List.mem_singleton] at hc
      subst hc
      exact hx
  | succ f ih =>
    intro l c hc x hx
    cases l with
    | nil => simp [chunksGo] at hc
    | cons a t =>
      rcases List.mem_cons.mp hc with rfl | hc2
      · rcases List.mem_cons.mp hx with rfl | hx2
        · exact List.mem_cons_self x t
        · exact List.mem_cons_of_mem a (List.take_subset n t hx2)
      · exact List.mem_cons_of_mem a
          (List.drop_subset n t (ih (t.drop n) c hc2 x hx))

/-- Whitespace characters for line trimming: space, tab, carriage return. -/
def wsChar (c : Char) : Bool := c == ' ' || c == '\t' || c == '\r'

/-- A line is blank when it consists of whitespace only (in particular when
it is empty). -/
def isBlankLine (l : List Char) : Bool := l.all wsChar

/-- Drop blank lines from both ends of a paragraph. -/
def trimBlankLines (g : List (List Char)) : List (List Char) :=
  ((g.dropWhile isBlankLine).reverse.dropWhile isBlankLine).reverse

/-- Modelled from the spec: the paragraph split of the missing slide
segmentation module (spec 4.3, step 1) — the lyrics are divided on runs of
two or more consecutive line breaks (so the lines are grouped at empty
lines), each paragraph is trimmed of surrounding blank lines, and paragraphs
that are empty after trimming are discarded. -/
def paragraphs (s : List Char) : List (List (List Char)) :=
  (((splitSep (fun l : List Char => l.isEmpty) (linesOf s)).map trimBlankLines).filter
    (fun g => !g.isEmpty))

/-- Modelled from the spec: the `SlideFormat` policy enumeration of the
missing slide segmentation module; its caller offers `2-lines`, `4-lines`
and `full-verse`. -/
inductive SlideFormat
  | twoLines
  | fourLines
  | fullVerse

/-- Modelled from the spec: `splitIntoSlides(lyrics, format)` of the missing
slide segmentation module (spec 4.3, step 2) — under `FullVerse` each
paragraph is one slide; under `TwoLines`/`FourLines` the non-blank lines of
each paragraph are grouped into chunks of two or four, the last chunk of a
paragraph possibly shorter, each chunk rejoined with single line breaks. -/
def splitIntoSlides (lyrics : List Char) (format : SlideFormat) : List (List Char) :=
  match format with
  | .fullVerse => (paragraphs lyrics).map (joinWith ['\n'])
  | .twoLines =>
      (paragraphs lyrics).flatMap
        (fun g => (chunks 1 (g.filter (fun l => !isBlankLine l))).map (joinWith ['\n']))
  | .fourLines =>
      (paragraphs lyrics).flatMap
        (fun g => (chunks 3 (g.filter (fun l => !isBlankLine l))).map (joinWith ['\n']))

/-- Modelled from the spec: the segmented `formatForProjection(song, format)`
variant of the missing slide segmentation module (the superseding
conformance mode of spec 4.4) — the two-line header, a blank line, then the
slides joined with a triple line break. -/
def formatForProjectionSegmented (song : Song) (format : SlideFormat) : List Char :=
  "Title: ".toList ++ song.title ++ "\nAuthor: ".toList ++ orUnknown song.artist
    ++ "\n\n".toList ++ joinWith "\n\n\n".toList (splitIntoSlides song.lyrics format)

theorem trimBlankLines_subset (g : List (List Char)) :
    ∀ x ∈ trimBlankLines g, x ∈ g := by
  intro x hx
  unfold trimBlankLines at hx
  rw [List.mem_reverse] at hx
  have hx2 := (List.dropWhile_sublist isBlankLine).subset hx
  rw [List.mem_reverse] at hx2
  exact (List.dropWhile_sublist isBlankLine).subset hx2

theorem paragraphs_line_mem (lyrics : List Char) (q : List (List Char))
    (hq : q ∈ paragraphs lyrics) : ∀ x ∈ q, x ∈ linesOf lyrics := by
  intro x hx
  unfold paragraphs at hq
  have hq1 := List.mem_of_mem_filter hq
  rcases List.mem_map.mp hq1 with ⟨g0, hg0, rfl⟩
  exact splitSep_mem_orig _ _ g0 hg0 x (trimBlankLines_subset g0 x hx)

theorem slide_lines_le (n : Nat) (lyrics g : List Char)
    (hg : g ∈ (paragraphs lyrics).flatMap
        (fun q => (chunks n (q.filter (fun l => !isBlankLine l))).map (joinWith ['\n']))) :
    (linesOf g).length ≤ n + 1 := by
  rcases List.mem_flatMap.mp hg with ⟨q, hq, hg2⟩
  rcases List.mem_map.mp hg2 with ⟨c, hc, rfl⟩
  have hne : c ≠ [] := chunksGo_mem_ne_nil n _ _ c hc
  have hnosep : ∀ x ∈ c, ∀ ch ∈ x, (ch == '\n') = false := by
    intro x hx ch hch
    have hxf : x ∈ q.filter (fun l => !isBlankLine l) :=
      chunksGo_mem_subset n _ _ c hc x hx
    have hxl : x ∈ linesOf lyrics :=
      paragraphs_line_mem lyrics q hq x (List.mem_of_mem_filter hxf)
    exact splitSep_sep_false _ _ x hxl ch hch
  have hlines : linesOf (joinWith ['\n'] c) = c :=
    splitSep_joinWith _ '\n' rfl c hne hnosep
  rw [hlines]
  exact chunks_mem_length n _ c hc

/-- Claim C3: in the segmented (superseding) conformance mode, the
projection formatter produces the two-line header, a blank line, and the
slides of the chosen format joined with a triple line break (two full blank
lines); on the specification example the two-line slides are
`Line1\nLine2`, `Line3\nLine4`, `Line5`. -/
theorem formatForProjectionSegmented_spec :
    (∀ (song : Song) (format : SlideFormat),
      formatForProjectionSegmented song format
        = "Title: ".toList ++ song.title ++ "\nAuthor: ".toList ++ orUnknown song.artist
            ++ "\n\n".toList
            ++ joinWith "\n\n\n".toList (splitIntoSlides song.lyrics format))
  ∧ splitIntoSlides "Line1\nLine2\n\nLine3\nLine4\nLine5".toList SlideFormat.twoLines
      = ["Line1\nLine2".toList, "Line3\nLine4".toList, "Line5".toList]
  ∧ formatForProjectionSegmented
        ⟨1, "X".toList, some "Y".toList,
          "Line1\nLine2\n\nLine3\nLine4\nLine5".toList, "Twi".toList, false, []⟩
        SlideFormat.twoLines
      = "Title: X\nAuthor: Y\n\nLine1\nLine2\n\n\nLine3\nLine4\n\n\nLine5".toList :=
  ⟨fun _ _ => rfl, by decide, by decide⟩

/-- Claim C8: the segmentation policy — empty lyrics produce no slides under
any format; every two-line slide has at most two lines and every four-line
slide at most four; under `FullVerse` the number of slides equals the number
of blank-line-delimited paragraphs. -/
theorem splitIntoSlides_policy :
    (∀ format : SlideFormat, splitIntoSlides [] format = [])
  ∧ (∀ lyrics g : List Char, g ∈ splitIntoSlides lyrics SlideFormat.twoLines →
      (linesOf g).length ≤ 2)
  ∧ (∀ lyrics g : List Char, g ∈ splitIntoSlides lyrics SlideFormat.fourLines →
      (linesOf g).length ≤ 4)
  ∧ (∀ lyrics : List Char, (splitIntoSlides lyrics SlideFormat.fullVerse).length
      = (paragraphs lyrics).length) := by
  refine ⟨?_, ?_, ?_, ?_⟩
  · intro format; cases format <;> decide
  · intro lyrics g hg; exact slide_lines_le 1 lyrics g hg
  · intro lyrics g hg; exact slide_lines_le 3 lyrics g hg
  · intro lyrics; simp [splitIntoSlides]

/-- Claim C8, witness: the policy bounds at the specification example, for a
two-line slide and a four-line slide. -/
theorem splitIntoSlides_policy_witness :
    (linesOf "Line1\nLine2".toList).length ≤ 2
      ∧ (linesOf "Line3\nLine4\nLine5".toList).length ≤ 4 :=
  ⟨splitIntoSlides_policy.2.1 "Line1\nLine2\n\nLine3\nLine4\nLine5".toList
      "Line1\nLine2".toList (by decide),
    splitIntoSlides_policy.2.2.1 "Line1\nLine2\n\nLine3\nLine4\nLine5".toList
      "Line3\nLine4\nLine5".toList (by decide)⟩

/-- The Twi substitution table as a single character map: `ɛ/Ɛ → e`,
`ɔ/Ɔ → o`, `ŋ/Ŋ → n`, all other characters unchanged. -/
def twiFold (c : Char) : Char :=
  if c = 'ɛ' then 'e'
  else if c = 'Ɛ' then 'e'
  else if c = 'ɔ' then 'o'
  else if c = 'Ɔ' then 'o'
  else if c = 'ŋ' then 'n'
  else if c = 'Ŋ' then 'n'
  else c

/-- A single-character global replacement acts on one character. -/
def stepRep (c r d : Char) : Char := if d = c then r else d

theorem stepRep_chain (x : Char) :
    stepRep 'Ŋ' 'n' (stepRep 'ŋ' 'n' (stepRep 'Ɔ' 'o' (stepRep 'ɔ' 'o'
      (stepRep 'Ɛ' 'e' (stepRep 'ɛ' 'e' x))))) = twiFold x := by
  by_cases h1 : x = 'ɛ'
  · subst h1; decide
  by_cases h2 : x = 'Ɛ'
  · subst h2; decide
  by_cases h3 : x = 'ɔ'
  · subst h3; decide
  by_cases h4 : x = 'Ɔ'
  · subst h4; decide
  by_cases h5 : x = 'ŋ'
  · subst h5; decide
  by_cases h6 : x = 'Ŋ'
  · subst h6; decide
  simp [stepRep, twiFold, h1, h2, h3, h4, h5, h6]

theorem replaceChar_singleton_cons (c r x : Char) (rest : List Char) :
    replaceChar c [r] (x :: rest) = stepRep c r x :: replaceChar c [r] rest := by
  by_cases h : x = c <;> simp [replaceChar, stepRep, h]

theorem chain_cons (x : Char) (l : List Char) :
    replaceChar 'Ŋ' ['n'] (replaceChar 'ŋ' ['n'] (replaceChar 'Ɔ' ['o']
      (replaceChar 'ɔ' ['o'] (replaceChar 'Ɛ' ['e'] (replaceChar 'ɛ' ['e'] (x :: l))))))
      = twiFold x
        :: replaceChar 'Ŋ' ['n'] (replaceChar 'ŋ' ['n'] (replaceChar 'Ɔ' ['o']
            (replaceChar 'ɔ' ['o'] (replaceChar 'Ɛ' ['e'] (replaceChar 'ɛ' ['e'] l))))) := by
  rw [replaceChar_singleton_cons 'ɛ' 'e' x l]
  rw [replaceChar_singleton_cons 'Ɛ' 'e' (stepRep 'ɛ' 'e' x) (replaceChar 'ɛ' ['e'] l)]
  rw [replaceChar_singleton_cons 'ɔ' 'o' (stepRep 'Ɛ' 'e' (stepRep 'ɛ' 'e' x))
    (replaceChar 'Ɛ' ['e'] (replaceChar 'ɛ' ['e'] l))]
  rw [replaceChar_singleton_cons 'Ɔ' 'o'
    (stepRep 'ɔ' 'o' (stepRep 'Ɛ' 'e' (stepRep 'ɛ' 'e' x)))
    (replaceChar 'ɔ' ['o'] (replaceChar 'Ɛ' ['e'] (replaceChar 'ɛ' ['e'] l)))]
  rw [replaceChar_singleton_cons 'ŋ' 'n'
    (stepRep 'Ɔ' 'o' (stepRep 'ɔ' 'o' (stepRep 'Ɛ' 'e' (stepRep 'ɛ' 'e' x))))
    (replaceChar 'Ɔ' ['o'] (replaceChar 'ɔ' ['o'] (replaceChar 'Ɛ' ['e']
      (replaceChar 'ɛ' ['e'] l))))]
  rw [replaceChar_singleton_cons 'Ŋ' 'n'
    (stepRep 'ŋ' 'n' (stepRep 'Ɔ' 'o' (stepRep 'ɔ' 'o' (stepRep 'Ɛ' 'e'
      (stepRep 'ɛ' 'e' x)))))
    (replaceChar 'ŋ' ['n'] (replaceChar 'Ɔ' ['o'] (replaceChar 'ɔ' ['o']
      (replaceChar 'Ɛ' ['e'] (replaceChar 'ɛ' ['e'] l)))))]
  rw [stepRep_chain x]

theorem char_toNat_ofNat (n : Nat) (h : n.isValidChar) : (Char.ofNat n).toNat = n := by
  rw [Char.ofNat, dif_pos h]
  rfl


theorem lookup_mem_pairs {β : Type} : ∀ (L : List (Nat × β)) (n : Nat) (v : β),
    L.lookup n = some v → (n, v) ∈ L := by
  intro L
  induction L with
  | nil => intro n v h; simp [List.lookup] at h
  | cons p t ih =>
    intro n v h
    rw [List.lookup] at h
    cases he : (n == p.1) with
    | true =>
      rw [he] at h
      obtain ⟨a, b⟩ := p
      simp only at h
      simp only [beq_iff_eq] at he
      have hv : b = v := by injection h
      subst he
      subst hv
      exact List.mem_cons_self _ t
    | false =>
      rw [he] at h
      exact List.mem_cons_of_mem p (ih n v h)

theorem lowerClosed1 : lowerTable1.all (fun p => p.2.all (fun m =>
    decide (Nat.isValidChar m) && (lowerLookup m).isNone)) = true := by decide

theorem lowerClosed2 : lowerTable2.all (fun p => p.2.all (fun m =>
    decide (Nat.isValidChar m) && (lowerLookup m).isNone)) = true := by decide

theorem lowerClosed3 : lowerTable3.all (fun p => p.2.all (fun m =>
    decide (Nat.isValidChar m) && (lowerLookup m).isNone)) = true := by decide

theorem lowerClosed4 : lowerTable4.all (fun p => p.2.all (fun m =>
    decide (Nat.isValidChar m) && (lowerLookup m).isNone)) = true := by decide

theorem lowerClosed5 : lowerTable5.all (fun p => p.2.all (fun m =>
    decide (Nat.isValidChar m) && (lowerLookup m).isNone)) = true := by decide

theorem lowerClosed6 : lowerTable6.all (fun p => p.2.all (fun m =>
    decide (Nat.isValidChar m) && (lowerLookup m).isNone)) = true := by decide

theorem lowerClosed7 : lowerTable7.all (fun p => p.2.all (fun m =>
    decide (Nat.isValidChar m) && (lowerLookup m).isNone)) = true := by decide

theorem lowerClosed8 : lowerTable8.all (fun p => p.2.all (fun m =>
    decide (Nat.isValidChar m) && (lowerLookup m).isNone)) = true := by decide

theorem lowerClosed9 : lowerTable9.all (fun p => p.2.all (fun m =>
    decide (Nat.isValidChar m) && (lowerLookup m).isNone)) = true := by decide

theorem lowerClosed10 : lowerTable10.all (fun p => p.2.all (fun m =>
    decide (Nat.isValidChar m) && (lowerLookup m).isNone)) = true := by decide

theorem lowerClosed11 : lowerTable11.all (fun p => p.2.all (fun m =>
    decide (Nat.isValidChar m) && (lowerLookup m).isNone)) = true := by decide

theorem lowerClosed12 : lowerTable12.all (fun p => p.2.all (fun m =>
    decide (Nat.isValidChar m) && (lowerLookup m).isNone)) = true := by decide

theorem lowerLen1 : lowerTable1.all (fun p =>
    (p.1 == 304) || (p.2.length == 1)) = true := by decide

theorem lowerLen2 : lowerTable2.all (fun p =>
    (p.1 == 304) || (p.2.length == 1)) = true := by decide

theorem lowerLen3 : lowerTable3.all (fun p =>
    (p.1 == 304) || (p.2.length == 1)) = true := by decide

theorem lowerLen4 : lowerTable4.all (fun p =>
    (p.1 == 304) || (p.2.length == 1)) = true := by decide

theorem lowerLen5 : lowerTable5.all (fun p =>
    (p.1 == 304) || (p.2.length == 1)) = true := by decide

theorem lowerLen6 : lowerTable6.all (fun p =>
    (p.1 == 304) || (p.2.length == 1)) = true := by decide

theorem lowerLen7 : lowerTable7.all (fun p =>
    (p.1 == 304) || (p.2.length == 1)) = true := by decide

theorem lowerLen8 : lowerTable8.all (fun p =>
    (p.1 == 304) || (p.2.length == 1)) = true := by decide

theorem lowerLen9 : lowerTable9.all (fun p =>
    (p.1 == 304) || (p.2.length == 1)) = true := by decide

theorem lowerLen10 : lowerTable10.all (fun p =>
    (p.1 == 304) || (p.2.length == 1)) = true := by decide

theorem lowerLen11 : lowerTable11.all (fun p =>
    (p.1 == 304) || (p.2.length == 1)) = true := by decide

theorem lowerLen12 : lowerTable12.all (fun p =>
    (p.1 == 304) || (p.2.length == 1)) = true := by decide

theorem chunkSpec (L : List (Nat × List Nat))
    (hL : L.all (fun p => p.2.all (fun m =>
      decide (Nat.isValidChar m) && (lowerLookup m).isNone)) = true)
    (n : Nat) (v : List Nat) (h : L.lookup n = some v) :
    ∀ m ∈ v, Nat.isValidChar m ∧ lowerLookup m = none := by
  intro m hm
  have h1 := List.all_eq_true.mp hL _ (lookup_mem_pairs L n v h)
  have h2 : (decide (Nat.isValidChar m) && (lowerLookup m).isNone) = true :=
    List.all_eq_true.mp h1 m hm
  rw [Bool.and_eq_true] at h2
  exact ⟨of_decide_eq_true h2.1, Option.isNone_iff_eq_none.mp h2.2⟩

theorem chunkLen (L : List (Nat × List Nat))
    (hL : L.all (fun p => (p.1 == 304) || (p.2.length == 1)) = true)
    (n : Nat) (v : List Nat) (h : L.lookup n = some v) :
    n = 304 ∨ v.length = 1 := by
  have h1 : ((n == 304) || (v.length == 1)) = true :=
    List.all_eq_true.mp hL _ (lookup_mem_pairs L n v h)
  rw [Bool.or_eq_true] at h1
  rcases h1 with h | h
  · exact Or.inl (by simpa using h)
  · exact Or.inr (by simpa using h)

theorem lowerLookup_spec (n : Nat) (v : List Nat) (h : lowerLookup n = some v) :
    ∀ m ∈ v, Nat.isValidChar m ∧ lowerLookup m = none := by
  unfold lowerLookup at h
  by_cases h1 : n < 386
  · rw [if_pos h1] at h
    exact chunkSpec _ lowerClosed1 _ _ h
  rw [if_neg h1] at h
  by_cases h2 : n < 916
  · rw [if_pos h2] at h
    exact chunkSpec _ lowerClosed2 _ _ h
  rw [if_neg h2] at h
  by_cases h3 : n < 1186
  · rw [if_pos h3] at h
    exact chunkSpec _ lowerClosed3 _ _ h
  rw [if_neg h3] at h
  by_cases h4 : n < 4267
  · rw [if_pos h4] at h
    exact chunkSpec _ lowerClosed4 _ _ h
  rw [if_neg h4] at h
  by_cases h5 : n < 7317
  · rw [if_pos h5] at h
    exact chunkSpec _ lowerClosed5 _ _ h
  rw [if_neg h5] at h
  by_cases h6 : n < 7846
  · rw [if_pos h6] at h
    exact chunkSpec _ lowerClosed6 _ _ h
  rw [if_neg h6] at h
  by_cases h7 : n < 8123
  · rw [if_pos h7] at h
    exact chunkSpec _ lowerClosed7 _ _ h
  rw [if_neg h7] at h
  by_cases h8 : n < 11367
  · rw [if_pos h8] at h
    exact chunkSpec _ lowerClosed8 _ _ h
  rw [if_neg h8] at h
  by_cases h9 : n < 42826
  · rw [if_pos h9] at h
    exact chunkSpec _ lowerClosed9 _ _ h
  rw [if_neg h9] at h
  by_cases h10 : n < 66587
  · rw [if_pos h10] at h
    exact chunkSpec _ lowerClosed10 _ _ h
  rw [if_neg h10] at h
  by_cases h11 : n < 68772
  · rw [if_pos h11] at h
    exact chunkSpec _ lowerClosed11 _ _ h
  rw [if_neg h11] at h
  exact chunkSpec _ lowerClosed12 _ _ h

theorem lowerLookup_len (n : Nat) (v : List Nat) (h : lowerLookup n = some v) :
    n = 304 ∨ v.length = 1 := by
  unfold lowerLookup at h
  by_cases h1 : n < 386
  · rw [if_pos h1] at h
    exact chunkLen _ lowerLen1 _ _ h
  rw [if_neg h1] at h
  by_cases h2 : n < 916
  · rw [if_pos h2] at h
    exact chunkLen _ lowerLen2 _ _ h
  rw [if_neg h2] at h
  by_cases h3 : n < 1186
  · rw [if_pos h3] at h
    exact chunkLen _ lowerLen3 _ _ h
  rw [if_neg h3] at h
  by_cases h4 : n < 4267
  · rw [if_pos h4] at h
    exact chunkLen _ lowerLen4 _ _ h
  rw [if_neg h4] at h
  by_cases h5 : n < 7317
  · rw [if_pos h5] at h
    exact chunkLen _ lowerLen5 _ _ h
  rw [if_neg h5] at h
  by_cases h6 : n < 7846
  · rw [if_pos h6] at h
    exact chunkLen _ lowerLen6 _ _ h
  rw [if_neg h6] at h
  by_cases h7 : n < 8123
  · rw [if_pos h7] at h
    exact chunkLen _ lowerLen7 _ _ h
  rw [if_neg h7] at h
  by_cases h8 : n < 11367
  · rw [if_pos h8] at h
    exact chunkLen _ lowerLen8 _ _ h
  rw [if_neg h8] at h
  by_cases h9 : n < 42826
  · rw [if_pos h9] at h
    exact chunkLen _ lowerLen9 _ _ h
  rw [if_neg h9] at h
  by_cases h10 : n < 66587
  · rw [if_pos h10] at h
    exact chunkLen _ lowerLen10 _ _ h
  rw [if_neg h10] at h
  by_cases h11 : n < 68772
  · rw [if_pos h11] at h
    exact chunkLen _ lowerLen11 _ _ h
  rw [if_neg h11] at h
  exact chunkLen _ lowerLen12 _ _ h

/-- A character is its own Unicode lowercase. -/
def lowerFixed (c : Char) : Bool := (lowerLookup c.toNat).isNone

theorem lowerGo_mem_fixed : ∀ (u prev : List Char), ∀ x ∈ lowerGo prev u,
    lowerFixed x = true := by
  intro u
  induction u with
  | nil => intro prev x hx; simp [lowerGo] at hx
  | cons c rest ih =>
    intro prev x hx
    rw [lowerGo] at hx
    rcases List.mem_append.mp hx with hx | hx
    · by_cases hs : c = 'Σ'
      · rw [if_pos hs] at hx
        by_cases hf : finalSigma prev rest = true
        · rw [if_pos hf] at hx
          rw [List.mem_singleton.mp hx]
          decide
        · rw [if_neg hf] at hx
          rw [List.mem_singleton.mp hx]
          decide
      · rw [if_neg hs] at hx
        cases hl : lowerLookup c.toNat with
        | none =>
          simp only [simpleLower, hl] at hx
          rw [List.mem_singleton.mp hx]
          simp [lowerFixed, hl]
        | some v =>
          simp only [simpleLower, hl] at hx
          rcases List.mem_map.mp hx with ⟨m, hm, rfl⟩
          obtain ⟨hvalid, hnone⟩ := lowerLookup_spec c.toNat v hl m hm
          simp [lowerFixed, char_toNat_ofNat m hvalid, hnone]
    · exact ih (c :: prev) x hx

theorem lowerGo_id : ∀ (u prev : List Char), (∀ c ∈ u, lowerFixed c = true) →
    lowerGo prev u = u := by
  intro u
  induction u with
  | nil => intro prev _; rfl
  | cons c rest ih =>
    intro prev h
    have hc := h c (List.mem_cons_self c rest)
    have hs : c ≠ 'Σ' := by
      intro he
      rw [he] at hc
      exact absurd hc (by decide)
    have hl : lowerLookup c.toNat = none := Option.isNone_iff_eq_none.mp hc
    rw [lowerGo, if_neg hs,
      ih (c :: prev) (fun d hd => h d (List.mem_cons_of_mem c hd))]
    simp [simpleLower, hl]

theorem lowerGo_length : ∀ (u prev : List Char), (∀ c ∈ u, c ≠ 'İ') →
    (lowerGo prev u).length = u.length := by
  intro u
  induction u with
  | nil => intro prev _; rfl
  | cons c rest ih =>
    intro prev h
    rw [lowerGo, List.length_append,
      ih (c :: prev) (fun d hd => h d (List.mem_cons_of_mem c hd))]
    have hlen : (if c = 'Σ' then (if finalSigma prev rest then ['ς'] else ['σ'])
        else simpleLower c).length = 1 := by
      by_cases hs : c = 'Σ'
      · rw [if_pos hs]
        by_cases hf : finalSigma prev rest = true
        · rw [if_pos hf]; rfl
        · rw [if_neg hf]; rfl
      · rw [if_neg hs]
        cases hl : lowerLookup c.toNat with
        | none => simp [simpleLower, hl]
        | some v =>
          rcases lowerLookup_len c.toNat v hl with h304 | h1
          · exfalso
            apply h c (List.mem_cons_self c rest)
            have hchar : Char.ofNat c.toNat = Char.ofNat 304 := by rw [h304]
            rw [Char.ofNat_toNat] at hchar
            rw [hchar]
          · simp [simpleLower, hl, h1]
    rw [hlen]
    simp [List.length_cons]
    omega

theorem twiChain_eq_map : ∀ l : List Char,
    replaceChar 'Ŋ' ['n'] (replaceChar 'ŋ' ['n'] (replaceChar 'Ɔ' ['o']
      (replaceChar 'ɔ' ['o'] (replaceChar 'Ɛ' ['e'] (replaceChar 'ɛ' ['e'] l)))))
      = l.map twiFold := by
  intro l
  induction l with
  | nil => rfl
  | cons x t ih => rw [chain_cons, ih, List.map_cons]

theorem normalizeForSearch_eq_lower_map (s : List Char) :
    normalizeForSearch s = (jsToLowerCase s).map twiFold := by
  unfold normalizeForSearch
  exact twiChain_eq_map (jsToLowerCase s)

theorem twiFold_idem (c : Char) : twiFold (twiFold c) = twiFold c := by
  by_cases h1 : c = 'ɛ'
  · subst h1; decide
  by_cases h2 : c = 'Ɛ'
  · subst h2; decide
  by_cases h3 : c = 'ɔ'
  · subst h3; decide
  by_cases h4 : c = 'Ɔ'
  · subst h4; decide
  by_cases h5 : c = 'ŋ'
  · subst h5; decide
  by_cases h6 : c = 'Ŋ'
  · subst h6; decide
  have htw : twiFold c = c := by
    unfold twiFold
    rw [if_neg h1, if_neg h2, if_neg h3, if_neg h4, if_neg h5, if_neg h6]
  rw [htw, htw]

theorem twiFold_fixed (c : Char) (hc : lowerFixed c = true) :
    lowerFixed (twiFold c) = true := by
  unfold twiFold
  split_ifs with h1 h2 h3 h4 h5 h6
  · decide
  · decide
  · decide
  · decide
  · decide
  · decide
  · exact hc

theorem map_twiFold_fixed (l : List Char) (h : ∀ x ∈ l, lowerFixed x = true) :
    ∀ y ∈ l.map twiFold, lowerFixed y = true := by
  intro y hy
  rcases List.mem_map.mp hy with ⟨x, hx, rfl⟩
  exact twiFold_fixed x (h x hx)

theorem map_twiFold_idem (l : List Char) :
    (l.map twiFold).map twiFold = l.map twiFold := by
  induction l with
  | nil => rfl
  | cons c t ih => simp [List.map_cons, ih, twiFold_idem]

set_option maxRecDepth 100000 in
/-- Claim C6: `normalizeForSearch` case-folds its input with the Unicode
lowercase conversion and then applies the Twi substitution character by
character — `ɛ/Ɛ → e`, `ɔ/Ɔ → o`, `ŋ/Ŋ → n`, every other character left
unchanged by the substitution — and `normalizeForSearch "Ɔdɔ Ɛyɛ Ŋye"`
equals `"odo eye nye"`. -/
theorem normalizeForSearch_case_fold_twi :
    (∀ s : List Char, normalizeForSearch s = (jsToLowerCase s).map twiFold)
  ∧ (twiFold 'ɛ' = 'e' ∧ twiFold 'Ɛ' = 'e' ∧ twiFold 'ɔ' = 'o' ∧ twiFold 'Ɔ' = 'o'
      ∧ twiFold 'ŋ' = 'n' ∧ twiFold 'Ŋ' = 'n')
  ∧ (∀ c : Char, c ≠ 'ɛ' → c ≠ 'Ɛ' → c ≠ 'ɔ' → c ≠ 'Ɔ' → c ≠ 'ŋ' → c ≠ 'Ŋ' →
      twiFold c = c)
  ∧ normalizeForSearch "Ɔdɔ Ɛyɛ Ŋye".toList = "odo eye nye".toList := by
  refine ⟨normalizeForSearch_eq_lower_map, by decide, ?_, by decide⟩
  intro c h1 h2 h3 h4 h5 h6
  unfold twiFold
  rw [if_neg h1, if_neg h2, if_neg h3, if_neg h4, if_neg h5, if_neg h6]

/-- Claim C6, witness: a plain ASCII symbol is left unchanged by the Twi
substitution. -/
theorem normalizeForSearch_case_fold_twi_witness : twiFold '!' = '!' :=
  normalizeForSearch_case_fold_twi.2.2.1 '!' (by decide) (by decide) (by decide)
    (by decide) (by decide) (by decide)

/-- Claim C7: `normalizeForSearch` is idempotent — the lowercase conversion
maps every character to characters that are their own lowercase, the Twi
substitution maps them to characters that are again their own lowercase and
fixed points of the substitution, so normalizing a normalized string
changes nothing. -/
theorem normalizeForSearch_idempotent (s : List Char) :
    normalizeForSearch (normalizeForSearch s) = normalizeForSearch s := by
  rw [normalizeForSearch_eq_lower_map s,
    normalizeForSearch_eq_lower_map ((jsToLowerCase s).map twiFold),
    show jsToLowerCase ((jsToLowerCase s).map twiFold) = (jsToLowerCase s).map twiFold
      from lowerGo_id _ []
        (map_twiFold_fixed _ (lowerGo_mem_fixed s []))]
  exact map_twiFold_idem _

set_option maxRecDepth 100000 in
/-- Claim C9, counterexample: `normalizeForSearch` is not length-preserving —
the Unicode lowercase of the one-character title `İ` (U+0130) is the
two-character sequence `i` followed by the combining dot above (U+0307), so
the normalized string is longer than the input. -/
theorem normalizeForSearch_not_length_preserving :
    ¬ ((normalizeForSearch "İ".toList).length = "İ".toList.length) := by decide

/-- Claim C9 (amended): `normalizeForSearch` preserves length on every
string that does not contain `İ` (U+0130), the only character whose
Unicode lowercase expands; on such inputs the index arithmetic of the
match-highlighting component is sound, while a title containing `İ` can
make it slice at shifted positions. -/
theorem normalizeForSearch_length_outside_expansion (s : List Char)
    (h : 'İ' ∉ s) : (normalizeForSearch s).length = s.length := by
  rw [normalizeForSearch_eq_lower_map, List.length_map]
  exact lowerGo_length s [] (fun c hc he => h (he ▸ hc))

set_option maxRecDepth 100000 in
/-- Claim C9, witness: the amended length preservation at a concrete
`İ`-free title. -/
theorem normalizeForSearch_length_outside_expansion_witness :
    (normalizeForSearch "Ɔdɔ Ɛyɛ Ŋye".toList).length = "Ɔdɔ Ɛyɛ Ŋye".toList.length :=
  normalizeForSearch_length_outside_expansion "Ɔdɔ Ɛyɛ Ŋye".toList (by decide)
